import Mathlib

/-!
Shallow embedding of the document field-extraction pipeline in
`src/backend_api/core_extractor.py` (OCR-Atenea-empresarial).

Modelling conventions:
* Python `str` is modelled by `String`; `None`-able strings by `Option String`.
* Python dicts produced by `json.loads` and mutated by the normalizers are
  modelled by association lists `Rec := List (String × Option String)` with
  dict-faithful `get` / assignment / `setdefault` operations (a key can be
  present with a null value, which is distinct from the key being absent).
* The regular-expression searches of the source are hand-compiled into
  deterministic scanners over `List Char` that reproduce `re.search`
  semantics (leftmost match, greedy bounded repetition with backtracking)
  for the specific patterns of the source.  `\d`, `\s` and case folding are
  modelled over the ASCII + Spanish-accent character fragment that the
  pipeline manipulates.
* Effectful steps (PyMuPDF text extraction, EasyOCR, the OpenAI chat call,
  the wall clock) are oracle fields of an `Env` record; everything the
  repository computes from their answers is embedded from the source.
* Exceptions (`json.JSONDecodeError` escaping `safe_json_loads`) are
  modelled with `Except String`.
-/

set_option maxRecDepth 4000

/-! ### Character and string utilities -/

/-- Python `\s` (ASCII fragment): space, TAB, LF, CR, VT, FF. -/
def pyWs (c : Char) : Bool :=
  c == ' ' || c == '\t' || c == '\n' || c == '\r' || c == Char.ofNat 11 || c == Char.ofNat 12

/-- Python `\d` (ASCII fragment). -/
def isDigitC (c : Char) : Bool := c.isDigit

/-- Python `str.lower` on the ASCII + Spanish-accent fragment. -/
def pyLowerC (c : Char) : Char :=
  if c == 'Á' then 'á' else if c == 'É' then 'é' else if c == 'Í' then 'í'
  else if c == 'Ó' then 'ó' else if c == 'Ú' then 'ú' else if c == 'Ñ' then 'ñ'
  else c.toLower

/-- Python `str.upper` on the ASCII + Spanish-accent fragment. -/
def pyUpperC (c : Char) : Char :=
  if c == 'á' then 'Á' else if c == 'é' then 'É' else if c == 'í' then 'Í'
  else if c == 'ó' then 'Ó' else if c == 'ú' then 'Ú' else if c == 'ñ' then 'Ñ'
  else c.toUpper

def pyUpper (s : String) : String := String.mk (s.data.map pyUpperC)

def pyLowerS (s : String) : String := String.mk (s.data.map pyLowerC)

/-- Python `str.strip()` on char lists. -/
def pyStripChars (l : List Char) : List Char :=
  ((l.dropWhile pyWs).reverse.dropWhile pyWs).reverse

/-- Python `str.strip()`. -/
def pyStrip (s : String) : String := String.mk (pyStripChars s.data)

/-- Embeds `re.sub(r"\D", "", s)`. -/
def digitsOf (s : String) : String := String.mk (s.data.filter isDigitC)

/-- Embeds `only_digits` (core_extractor.py:60-64). -/
def only_digits (x : Option String) : Option String :=
  x.bind fun s => let d := digitsOf s; if d == "" then none else some d

/-- Embeds `normalize_text` (core_extractor.py:66-70). -/
def normalize_text (x : Option String) : Option String :=
  x.bind fun s => let t := pyStrip s; if t == "" then none else some t

/-- Python `"{:02d}".format n`. -/
def pad2 (n : ℕ) : String := if n < 10 then "0" ++ toString n else toString n

/-- Python `"{:04d}".format n`. -/
def pad4 (n : ℕ) : String :=
  if n < 10 then "000" ++ toString n
  else if n < 100 then "00" ++ toString n
  else if n < 1000 then "0" ++ toString n
  else toString n

/-- Numeric value of a digit string (`int(...)` on the matched group). -/
def digitsVal (l : List Char) : ℕ := l.foldl (fun a c => 10 * a + (c.toNat - 48)) 0

/-! ### Scanner primitives for the source's regular expressions -/

/-- All ways a bounded greedy repetition `p{mn,mx}` can split `l` into
(consumed, rest), longest first — the backtracking order of `re`. -/
def repSplits (p : Char → Bool) (mn mx : ℕ) (l : List Char) : List (List Char × List Char) :=
  let run := (l.takeWhile p).length
  let m := min mx run
  if m < mn then []
  else (List.range (m + 1 - mn)).map fun i => ((l.takeWhile p).take (m - i), l.drop (m - i))

/-- Consume a literal, case-sensitively. -/
def eatLit : List Char → List Char → Option (List Char)
  | [], rest => some rest
  | _ :: _, [] => none
  | c :: cs, d :: ds => if d == c then eatLit cs ds else none

/-- Consume a literal under `re.IGNORECASE`. -/
def eatLitCI : List Char → List Char → Option (List Char)
  | [], rest => some rest
  | _ :: _, [] => none
  | c :: cs, d :: ds => if pyLowerC d == pyLowerC c then eatLitCI cs ds else none

/-- Embeds `re.search`: try the matcher at every start position, leftmost first. -/
def searchFirst {α : Type} (m : List Char → Option α) : List Char → Option α
  | [] => m []
  | c :: t => (m (c :: t)).orElse fun _ => searchFirst m t

/-- Embeds `re.search` with a word-boundary context (the previous character). -/
def searchWithPrev {α : Type} (m : Option Char → List Char → Option α) :
    Option Char → List Char → Option α
  | prev, [] => m prev []
  | prev, c :: t => (m prev (c :: t)).orElse fun _ => searchWithPrev m (some c) t

/-! ### Date normalization (`normalize_date`, core_extractor.py:72-106) -/

/-- Separator class: dash, slash or space. -/
def dateSep (c : Char) : Bool := c == '-' || c == '/' || c == ' '

/-- Separator class: dash or slash. -/
def dateSep2 (c : Char) : Bool := c == '-' || c == '/'

def isUpperAZ (c : Char) : Bool := 'A' ≤ c && c ≤ 'Z'

/-- Embeds `\d{4}` at the head of the input (a fifth digit may follow, as in `re`). -/
def year4At (l : List Char) : Option ℕ :=
  match l with
  | a :: b :: c :: d :: _ =>
    if isDigitC a && isDigitC b && isDigitC c && isDigitC d then
      some (digitsVal [a, b, c, d])
    else none
  | _ => none

/-- Embeds `re.fullmatch(r"\d{4}-\d{2}-\d{2}", s)`. -/
def isoFull (s : String) : Bool :=
  match s.data with
  | [a, b, c, d, e, f, g, h, i, j] =>
    isDigitC a && isDigitC b && isDigitC c && isDigitC d && e == '-' &&
    isDigitC f && isDigitC g && h == '-' && isDigitC i && isDigitC j
  | _ => false

/-- Matcher for day(1-2 digits), sep, three capital letters, sep, year(4 digits) at one position. -/
def matchDMMMY (l : List Char) : Option (ℕ × String × ℕ) :=
  (repSplits isDigitC 1 2 l).findSome? fun pd =>
    match pd.2 with
    | s1 :: r2 =>
      if dateSep s1 then
        match r2 with
        | a :: b :: c :: s2 :: r4 =>
          if isUpperAZ a && isUpperAZ b && isUpperAZ c && dateSep s2 then
            (year4At r4).map fun y => (digitsVal pd.1, String.mk [a, b, c], y)
          else none
        | _ => none
      else none
    | [] => none

/-- Matcher for day(1-2 digits), dash-or-slash, month(1-2 digits), dash-or-slash, year(4 digits) at one position. -/
def matchDMY (l : List Char) : Option (ℕ × ℕ × ℕ) :=
  (repSplits isDigitC 1 2 l).findSome? fun pd =>
    match pd.2 with
    | s1 :: r2 =>
      if dateSep2 s1 then
        (repSplits isDigitC 1 2 r2).findSome? fun pm =>
          match pm.2 with
          | s2 :: r4 =>
            if dateSep2 s2 then
              (year4At r4).map fun y => (digitsVal pd.1, digitsVal pm.1, y)
            else none
          | [] => none
      else none
    | [] => none

/-- The fixed month-abbreviation table of `normalize_date`. -/
def monthsEN : List (String × ℕ) :=
  [("JAN", 1), ("FEB", 2), ("MAR", 3), ("APR", 4), ("MAY", 5), ("JUN", 6),
   ("JUL", 7), ("AUG", 8), ("SEP", 9), ("OCT", 10), ("NOV", 11), ("DEC", 12)]

/-- The numeric `dd-mm-yyyy` attempt and the final fallback of
`normalize_date` (lines 98-106): the uppercased stripped input is returned
unchanged when nothing matched. -/
def normDateNumeric (u : String) : Option String :=
  match searchFirst matchDMY u.data with
  | some t => some (pad4 t.2.2 ++ "-" ++ pad2 t.2.1 ++ "-" ++ pad2 t.1)
  | none => some u

/-- Embeds `normalize_date` (core_extractor.py:72-106). -/
def normalize_date (x : Option String) : Option String :=
  match x with
  | none => none
  | some s0 =>
    if s0 == "" then none
    else
      let u := pyUpper (pyStrip s0)
      if isoFull u then some u
      else
        match searchFirst matchDMMMY u.data with
        | some t =>
          match monthsEN.lookup t.2.1 with
          | some m => some (pad4 t.2.2 ++ "-" ++ pad2 m ++ "-" ++ pad2 t.1)
          | none => normDateNumeric u
        | none => normDateNumeric u

/-! ### Spanish date normalization (`normalize_date_es`, core_extractor.py:433-463) -/

/-- Matcher for day(1-2 digits), slash-or-dash, month(1-2 digits), slash-or-dash, year(2-4 digits) at one position. -/
def matchDMYes (l : List Char) : Option (ℕ × ℕ × ℕ) :=
  (repSplits isDigitC 1 2 l).findSome? fun pd =>
    match pd.2 with
    | s1 :: r2 =>
      if dateSep2 s1 then
        (repSplits isDigitC 1 2 r2).findSome? fun pm =>
          match pm.2 with
          | s2 :: r4 =>
            if dateSep2 s2 then
              ((repSplits isDigitC 2 4 r4).head?).map fun py =>
                (digitsVal pd.1, digitsVal pm.1, digitsVal py.1)
            else none
          | [] => none
      else none
    | [] => none

/-- The month-name class `[A-ZÁÉÍÓÚÑ]`. -/
def esUpperLetter (c : Char) : Bool :=
  isUpperAZ c || c == 'Á' || c == 'É' || c == 'Í' || c == 'Ó' || c == 'Ú' || c == 'Ñ'

/-- Embeds `(?:DE\s*)?(\d{4})`: the optional `DE` branch is preferred (greedy `?`),
falling back to reading the year directly. -/
def esYearAfterOptDE (l : List Char) : Option ℕ :=
  (match eatLit ['D', 'E'] l with
   | some r => year4At (r.dropWhile pyWs)
   | none => none).orElse fun _ => year4At l

/-- Embeds `([A-ZÁÉÍÓÚÑ]+)\s*(?:DE\s*)?(\d{4})` from the current position
(maximal munch on the month letters; see `matchSpanishLong`). -/
def esMonFrom (r : List Char) : Option (String × ℕ) :=
  let mon := r.takeWhile esUpperLetter
  if mon.isEmpty then none
  else
    let r2 := (r.drop mon.length).dropWhile pyWs
    (esYearAfterOptDE r2).map fun y => (String.mk mon, y)

/-- Matcher for `(\d{1,2})\s*(?:DE\s*)?([A-ZÁÉÍÓÚÑ]+)\s*(?:DE\s*)?(\d{4})`
at one position (the first optional `DE` tried greedily with full
backtracking into the continuation). -/
def matchSpanishLong (l : List Char) : Option (ℕ × String × ℕ) :=
  (repSplits isDigitC 1 2 l).findSome? fun pd =>
    let r2 := pd.2.dropWhile pyWs
    let withDE : Option (String × ℕ) :=
      match eatLit ['D', 'E'] r2 with
      | some r3 => esMonFrom (r3.dropWhile pyWs)
      | none => none
    (withDE.orElse fun _ => esMonFrom r2).map fun my => (digitsVal pd.1, my.1, my.2)

/-- The fixed Spanish month-name table of `normalize_date_es`. -/
def mesES : List (String × ℕ) :=
  [("ENERO", 1), ("FEBRERO", 2), ("MARZO", 3), ("ABRIL", 4), ("MAYO", 5), ("JUNIO", 6),
   ("JULIO", 7), ("AGOSTO", 8), ("SEPTIEMBRE", 9), ("SETIEMBRE", 9), ("OCTUBRE", 10),
   ("NOVIEMBRE", 11), ("DICIEMBRE", 12)]

/-- Embeds `normalize_date_es` (core_extractor.py:433-463).  `unicodedata.normalize
("NFKC", s)` is the identity on the embedded character fragment.  The final
fallback returns the stripped (not uppercased) input. -/
def normalize_date_es (x : Option String) : Option String :=
  match x with
  | none => none
  | some s0 =>
    if s0 == "" then none
    else
      let s := pyStrip s0
      let sN := pyUpper s
      if isoFull sN then some sN
      else
        match searchFirst matchDMYes sN.data with
        | some t =>
          let yy := if t.2.2 < 100 then t.2.2 + 2000 else t.2.2
          some (pad4 yy ++ "-" ++ pad2 t.2.1 ++ "-" ++ pad2 t.1)
        | none =>
          match searchFirst matchSpanishLong sN.data with
          | some t =>
            match mesES.lookup t.2.1 with
            | some m => some (pad4 t.2.2 ++ "-" ++ pad2 m ++ "-" ++ pad2 t.1)
            | none => some s
          | none => some s

/-! ### Records (Python dicts of string-or-null fields) -/

/-- A language-model record: an association list from field name to value
(`some s` a string, `none` JSON null).  A key being absent is distinct from
a key being present with a null value, as for a Python dict. -/
abbrev Rec := List (String × Option String)

/-- Embeds `data.get(k)`: `none` both when the key is absent and when it is null. -/
def getV : Rec → String → Option String
  | [], _ => none
  | p :: t, k => if p.1 == k then p.2 else getV t k

/-- Key presence (`k in data`). -/
def hasKey (r : Rec) (k : String) : Bool := r.any fun p => p.1 == k

/-- Embeds `data[k] = v`: overwrite in place, else append (Python dict order; keys
are unique in a dict, so updating the first occurrence is exact). -/
def setV : Rec → String → Option String → Rec
  | [], k, v => [(k, v)]
  | p :: t, k, v => if p.1 == k then (k, v) :: t else p :: setV t k v

/-- Embeds `data.setdefault(k, v)`: set only when the key is absent. -/
def setdefaultV : Rec → String → String → Rec
  | [], k, v => [(k, some v)]
  | p :: t, k, v => if p.1 == k then p :: t else p :: setdefaultV t k v

/-- Python truthiness of a dict-or-None value (`if data:`). -/
def truthy (o : Option Rec) : Bool :=
  match o with
  | none => false
  | some r => !r.isEmpty

/-- Python truthiness of a string-or-None value (`if not data.get(k):`). -/
def falsyV (v : Option String) : Bool :=
  match v with
  | none => true
  | some s => s == ""

/-! ### RUT identity number: rules and validation (core_extractor.py:201-262) -/

/-- Embeds `numero_id_es_sospechoso` (lines 201-207). -/
def numero_id_es_sospechoso (num : Option String) : Bool :=
  match num with
  | none => true
  | some s =>
    if s == "" then true
    else
      let d := digitsOf s
      if 8 ≤ d.length ∧ d.length ≤ 10 then false else true

/-- Collapse whitespace: `" ".join(texto.split())`. -/
def wordsAux : List Char → List Char → List (List Char)
  | [], acc => if acc.isEmpty then [] else [acc.reverse]
  | c :: t, acc =>
    if pyWs c then
      if acc.isEmpty then wordsAux t [] else acc.reverse :: wordsAux t []
    else wordsAux t (c :: acc)

def collapseWs (s : String) : String :=
  String.intercalate " " ((wordsAux s.data []).map String.mk)

/-- Class `[0-9\s]` of the rule patterns' capture group. -/
def digitOrWs (c : Char) : Bool := isDigitC c || pyWs c

/-- Group part `\s*([0-9\s]{6,20})` shared by the two rule patterns: the
leading `\s*` is tried greedily (longest first) and the capture group takes
the longest span it can from each start, as `re` does. -/
def matchReglaGroup (l : List Char) : Option String :=
  (repSplits pyWs 0 l.length l).findSome? fun p1 =>
    ((repSplits digitOrWs 6 20 p1.2).head?).map fun pg => String.mk pg.1

/-- One position of `26\.\s*Número de Identificación\s*([0-9\s]{6,20})`
under `re.IGNORECASE`. -/
def matchRegla26 (l : List Char) : Option String :=
  (eatLitCI "26.".data l).bind fun r1 =>
    (eatLitCI "Número de Identificación".data (r1.dropWhile pyWs)).bind fun r2 =>
      matchReglaGroup r2

/-- One position of `Cédula de Ciudadanía\s*([0-9\s]{6,20})` under
`re.IGNORECASE`. -/
def matchReglaCedula (l : List Char) : Option String :=
  (eatLitCI "Cédula de Ciudadanía".data l).bind matchReglaGroup

/-- Embeds `extraer_numero_identificacion_regla` (lines 210-231). -/
def extraer_numero_identificacion_regla (texto : String) : Option String :=
  let t := collapseWs texto
  let first :=
    match searchFirst matchRegla26 t.data with
    | some g =>
      let cand := digitsOf g
      if 6 ≤ cand.length ∧ cand.length ≤ 11 then some cand else none
    | none => none
  match first with
  | some c => some c
  | none =>
    match searchFirst matchReglaCedula t.data with
    | some g =>
      let cand := digitsOf g
      if 6 ≤ cand.length ∧ cand.length ≤ 11 then some cand else none
    | none => none

/-- Embeds `corregir_numero_identificacion` (lines 234-241). -/
def corregir_numero_identificacion (data : Rec) (texto_pdf : String) : Rec :=
  match extraer_numero_identificacion_regla texto_pdf with
  | some regla => setV data "numero_identificacion" (some regla)
  | none => data

/-- Class `[\n: ]` of the strict field-26 pattern. -/
def clsNlColonSpace (c : Char) : Bool := c == '\n' || c == ':' || c == ' '

/-- Rests reachable by `\s*[\n: ]+\s*` from `l`, in backtracking order. -/
def sepCampo26Rests (l : List Char) : List (List Char) :=
  (repSplits pyWs 0 l.length l).flatMap fun p1 =>
    (repSplits clsNlColonSpace 1 p1.2.length p1.2).flatMap fun p2 =>
      (repSplits pyWs 0 p2.2.length p2.2).map fun p3 => p3.2

/-- One position of the case-sensitive pattern
`26\.\s*Número de Identificación\s*[\n: ]+\s*(\d{8,10})` (line 256). -/
def matchCampo26Strict (l : List Char) : Option String :=
  (eatLit "26.".data l).bind fun r1 =>
    (eatLit "Número de Identificación".data (r1.dropWhile pyWs)).bind fun r2 =>
      (sepCampo26Rests r2).findSome? fun r3 =>
        ((repSplits isDigitC 8 10 r3).head?).map fun pg => String.mk pg.1

/-- Embeds `validar_numero_identificacion` (lines 244-262): on success the returned
value is the digit group matched in `texto`, not the candidate. -/
def validar_numero_identificacion (texto : String) (candidato : Option String) : Option String :=
  match candidato with
  | none => none
  | some c0 =>
    if c0 == "" then none
    else
      let c := digitsOf c0
      if 8 ≤ c.length ∧ c.length ≤ 10 then searchFirst matchCampo26Strict texto.data
      else none

/-- Embeds `normalizar_campos_rut` (lines 306-325). -/
def normalizar_campos_rut (data : Rec) (rut_texto : String) : Rec :=
  let d1 := corregir_numero_identificacion data rut_texto
  let d2 := setV d1 "numero_identificacion"
    (validar_numero_identificacion rut_texto (getV d1 "numero_identificacion"))
  ["primer_apellido", "segundo_apellido", "primer_nombre", "otros_nombres",
   "tipo_documento"].foldl (fun d k => setV d k (normalize_text (getV d k))) d2

/-- Stable pick of the longest candidate:
`candidatos.sort(key=len, reverse=True); candidatos[0]`. -/
def pickLongest : List String → Option String
  | [] => none
  | c :: t => some (t.foldl (fun best x => if best.length < x.length then x else best) c)

/-- Embeds `ocr_numero_identificacion_desde_campo26` (lines 156-198).  The PDF
rendering and EasyOCR reading are oracles: `pages` holds, for each page on
which the identity-number label was found, the OCR line strings read from
the crop near the label.  The digit filtering, the 8-10 length gate and the
longest-candidate choice are the source's. -/
def ocr_numero_identificacion_desde_campo26 (pages : List (List String)) : Option String :=
  pages.findSome? fun lines =>
    pickLongest (lines.filterMap fun s =>
      let d := digitsOf s
      if 8 ≤ d.length ∧ d.length ≤ 10 then some d else none)

/-! ### National-ID (cédula) field normalization (core_extractor.py:398-427) -/

/-- Embeds `norm_si_no` (lines 415-423). -/
def norm_si_no (v : Option String) : Option String :=
  match v with
  | none => none
  | some s =>
    let t := pyLowerS (pyStrip s)
    if ["si", "sí", "s", "yes", "true", "1"].contains t then some "Sí"
    else if ["no", "n", "false", "0"].contains t then some "No"
    else none

/-- Embeds `normalizar_campos_cc` (lines 398-427), assignments in source order. -/
def normalizar_campos_cc (data : Rec) : Rec :=
  let d := setV data "doc_pais_emisor" (normalize_text (getV data "doc_pais_emisor"))
  let d := setV d "doc_tipo_documento" (normalize_text (getV d "doc_tipo_documento"))
  let d := setV d "doc_numero" (only_digits (getV d "doc_numero"))
  let d := setV d "doc_apellidos" (normalize_text (getV d "doc_apellidos"))
  let d := setV d "doc_nombres" (normalize_text (getV d "doc_nombres"))
  let d := setV d "doc_fecha_nacimiento" (normalize_date (getV d "doc_fecha_nacimiento"))
  let d := setV d "doc_lugar_nacimiento" (normalize_text (getV d "doc_lugar_nacimiento"))
  let d := setV d "doc_sexo" (normalize_text (getV d "doc_sexo"))
  let d := setV d "doc_estatura" (normalize_text (getV d "doc_estatura"))
  let d := setV d "doc_grupo_sanguineo_rh" (normalize_text (getV d "doc_grupo_sanguineo_rh"))
  let d := setV d "doc_fecha_expedicion" (normalize_date (getV d "doc_fecha_expedicion"))
  let d := setV d "doc_lugar_expedicion" (normalize_text (getV d "doc_lugar_expedicion"))
  let d := setV d "doc_registrador" (normalize_text (getV d "doc_registrador"))
  let d := setV d "doc_codigo_barras" (normalize_text (getV d "doc_codigo_barras"))
  let d := setV d "doc_huella_indice" (norm_si_no (getV d "doc_huella_indice"))
  setV d "doc_firma_titular" (norm_si_no (getV d "doc_firma_titular"))

/-! ### Bank-certification rule correctors (core_extractor.py:466-496) -/

/-- Word characters for the `\b` boundary (ASCII + accented letters). -/
def isWordC (c : Char) : Bool :=
  c.isAlphanum || c == '_' ||
  ["á", "é", "í", "ó", "ú", "ñ", "Á", "É", "Í", "Ó", "Ú", "Ñ"].contains (String.mk [c])

def boundaryOk (prev : Option Char) : Bool :=
  match prev with
  | none => true
  | some c => !isWordC c

/-- Class `[:\- ]`. -/
def clsColonDashSpace (c : Char) : Bool := c == ':' || c == '-' || c == ' '

/-- Optional single dot, with-dot branch first (greedy `?`). -/
def optDot (l : List Char) : List (List Char) :=
  match l with
  | '.' :: t => [t, l]
  | _ => [l]

/-- Tail of the NIT pattern: `\s*[:\- ]*([0-9\.]{5,15}(?:\-[0-9])?)` with
backtracking over the overlapping separator classes. -/
def nitGroup (l : List Char) : Option String :=
  (repSplits pyWs 0 l.length l).findSome? fun p1 =>
    (repSplits clsColonDashSpace 0 p1.2.length p1.2).findSome? fun p2 =>
      ((repSplits (fun c => isDigitC c || c == '.') 5 15 p2.2).head?).map fun pg =>
        match pg.2 with
        | '-' :: d :: _ => if isDigitC d then String.mk (pg.1 ++ ['-', d]) else String.mk pg.1
        | _ => String.mk pg.1

/-- One position of `\bN\.?I\.?T\.?\s*[:\- ]*(...)` under `re.IGNORECASE`. -/
def matchNit (prev : Option Char) (l : List Char) : Option String :=
  if boundaryOk prev then
    match l with
    | c1 :: t1 =>
      if pyLowerC c1 == 'n' then
        (optDot t1).findSome? fun r1 =>
          match r1 with
          | c2 :: t2 =>
            if pyLowerC c2 == 'i' then
              (optDot t2).findSome? fun r2 =>
                match r2 with
                | c3 :: t3 =>
                  if pyLowerC c3 == 't' then (optDot t3).findSome? fun r3 => nitGroup r3
                  else none
                | [] => none
            else none
          | [] => none
      else none
    | [] => none
  else none

/-- Embeds `extraer_banco_nit_regla` (lines 466-471). -/
def extraer_banco_nit_regla (texto : String) : Option String :=
  (searchWithPrev matchNit none texto.data).map pyStrip

/-- Tail of the account patterns: `\s*[:\- ]*([0-9\- ]{6,30})`. -/
def cuentaGroup (l : List Char) : Option String :=
  (repSplits pyWs 0 l.length l).findSome? fun p1 =>
    (repSplits clsColonDashSpace 0 p1.2.length p1.2).findSome? fun p2 =>
      ((repSplits (fun c => isDigitC c || c == '-' || c == ' ') 6 30 p2.2).head?).map
        fun pg => String.mk pg.1

/-- Optional char of a class, with-char branch first. -/
def optClass (p : Char → Bool) (l : List Char) : List (List Char) :=
  match l with
  | c :: t => if p c then [t, l] else [l]
  | [] => [l]

/-- One position of `\bN[°o]?\.?\s*CUENTA\s*[:\- ]*(...)`, `re.IGNORECASE`. -/
def matchCuentaP1 (prev : Option Char) (l : List Char) : Option String :=
  if boundaryOk prev then
    match l with
    | c1 :: t1 =>
      if pyLowerC c1 == 'n' then
        (optClass (fun c => c == '°' || pyLowerC c == 'o') t1).findSome? fun r1 =>
          (optDot r1).findSome? fun r2 =>
            (eatLitCI "CUENTA".data (r2.dropWhile pyWs)).bind cuentaGroup
      else none
    | [] => none
  else none

/-- One position of `\bCUENTA\s*[:\- ]*(...)`, `re.IGNORECASE`. -/
def matchCuentaP2 (prev : Option Char) (l : List Char) : Option String :=
  if boundaryOk prev then (eatLitCI "CUENTA".data l).bind cuentaGroup else none

/-- Nonempty whitespace `\s+` then the rest. -/
def ws1 (l : List Char) : Option (List Char) :=
  match l with
  | c :: t => if pyWs c then some (t.dropWhile pyWs) else none
  | [] => none

/-- One position of `\bCUENTA\s+DE\s+INVERSI[ÓO]N\s*[:\- ]*(...)`,
`re.IGNORECASE`. -/
def matchCuentaP3 (prev : Option Char) (l : List Char) : Option String :=
  if boundaryOk prev then
    (eatLitCI "CUENTA".data l).bind fun r1 =>
      (ws1 r1).bind fun r2 =>
        (eatLitCI "DE".data r2).bind fun r3 =>
          (ws1 r3).bind fun r4 =>
            (eatLitCI "INVERSI".data r4).bind fun r5 =>
              match r5 with
              | c :: t =>
                if pyLowerC c == 'ó' || pyLowerC c == 'o' then
                  (eatLitCI "N".data t).bind cuentaGroup
                else none
              | [] => none
  else none

/-- Run one account pattern and apply the digit filter and 6-30 gate. -/
def cuentaPatResult (m : Option Char → List Char → Option String) (texto : String) :
    Option String :=
  (searchWithPrev m none texto.data).bind fun g =>
    let cand := digitsOf g
    if 6 ≤ cand.length ∧ cand.length ≤ 30 then some cand else none

/-- Embeds `extraer_numero_cuenta_regla` (lines 474-487): the three patterns in
source order; a match whose digit count is out of range falls through. -/
def extraer_numero_cuenta_regla (texto : String) : Option String :=
  match cuentaPatResult matchCuentaP1 texto with
  | some c => some c
  | none =>
    match cuentaPatResult matchCuentaP2 texto with
    | some c => some c
    | none => cuentaPatResult matchCuentaP3 texto

/-- Substring test (`sub in hay`). -/
def isPrefixC : List Char → List Char → Bool
  | [], _ => true
  | _ :: _, [] => false
  | a :: as_, b :: bs => a == b && isPrefixC as_ bs

def containsSub : List Char → List Char → Bool
  | [], sub => sub.isEmpty
  | c :: t, sub => isPrefixC sub (c :: t) || containsSub t sub

def strContains (hay sub : String) : Bool := containsSub hay.data sub.data

/-- Embeds `extraer_estado_cuenta_regla` (lines 490-496). -/
def extraer_estado_cuenta_regla (texto : String) : Option String :=
  let t := pyUpper texto
  if strContains t "INACT" then some "INACTIVA"
  else if strContains t "ACTIV" then some "ACTIVA"
  else none

/-- Embeds `normalizar_campos_doc16` (lines 537-579). -/
def normalizar_campos_doc16 (data : Rec) (texto : String) : Rec :=
  let d := ["doc_tipo", "banco_nombre", "producto_tipo", "producto_nombre",
    "titular_nombre", "titular_tipo_documento", "ciudad_expedicion"].foldl
    (fun d k => setV d k (normalize_text (getV d k))) data
  let d := setV d "numero_cuenta" (only_digits (getV d "numero_cuenta"))
  let d := setV d "titular_num_documento" (only_digits (getV d "titular_num_documento"))
  let d := setV d "fecha_apertura" (normalize_date_es (getV d "fecha_apertura"))
  let d := setV d "fecha_expedicion" (normalize_date_es (getV d "fecha_expedicion"))
  let d :=
    if falsyV (getV d "banco_nit") then
      match extraer_banco_nit_regla texto with
      | some nit => setV d "banco_nit" (some nit)
      | none => d
    else d
  let d :=
    if falsyV (getV d "numero_cuenta") then
      match extraer_numero_cuenta_regla texto with
      | some nc => setV d "numero_cuenta" (some nc)
      | none => d
    else d
  let d :=
    if falsyV (getV d "estado_cuenta") then
      match extraer_estado_cuenta_regla texto with
      | some est => setV d "estado_cuenta" (some est)
      | none => d
    else d
  if falsyV (getV d "banco_nombre") then
    let t := pyUpper texto
    if strContains t "BANCOLOMBIA" then setV d "banco_nombre" (some "Bancolombia")
    else if strContains t "DAVIVIENDA" then setV d "banco_nombre" (some "Davivienda")
    else if strContains t "SCOTIABANK" || strContains t "COLPATRIA" then
      setV d "banco_nombre" (some "Scotiabank Colpatria")
    else d
  else d

/-! ### Logging and validators (core_extractor.py:37-48, 598-661) -/

/-- A validation log entry (`agregar_log`, lines 40-48). -/
structure LogEntry where
  timestamp : String
  documento : String
  tipo : String
  mensaje : String

/-- Embeds `agregar_log`: the timestamp string (`datetime.now().strftime(...)`) is
passed in as an oracle value `ts`. -/
def agregar_log (logs : List LogEntry) (ts documento tipo mensaje : String) : List LogEntry :=
  logs ++ [⟨ts, documento, tipo, mensaje⟩]

/-- Embeds `inicializar_logs` (lines 37-38). -/
def inicializar_logs : List LogEntry := []

/-- Embeds `validar_rut_vs_cedula` (lines 598-620). -/
def validar_rut_vs_cedula (data_rut data_cc : Rec) (ts : String) (logs : List LogEntry) :
    List LogEntry :=
  match only_digits (getV data_rut "numero_identificacion") with
  | none => agregar_log logs ts "RUT" "WARNING"
      "El RUT no tiene número de identificación extraído."
  | some rut_id =>
    match only_digits (getV data_cc "doc_numero") with
    | none => agregar_log logs ts "CEDULA" "WARNING"
        "La cédula no tiene número de identificación extraído."
    | some cc_id =>
      if rut_id ≠ cc_id then
        agregar_log logs ts "VALIDACION_CRUZADA" "WARNING"
          ("El número de identificación del RUT (" ++ rut_id ++
           ") NO coincide con el de la cédula (" ++ cc_id ++ ").")
      else
        agregar_log logs ts "VALIDACION_CRUZADA" "INFO"
          "El número de identificación del RUT coincide con el de la cédula."

/-- Embeds `validar_cedula_vacia` (lines 623-627). -/
def validar_cedula_vacia (data_cc : Rec) (ts : String) (logs : List LogEntry) :
    List LogEntry :=
  match only_digits (getV data_cc "doc_numero") with
  | none => agregar_log logs ts "CEDULA" "WARNING"
      "El campo doc_numero de la cédula está vacío o no fue detectado correctamente."
  | some _ => logs

/-! ### Calendar dates for the recency check (core_extractor.py:630-661) -/

/-- A parsed calendar date. -/
structure YMD where
  y : ℤ
  m : ℕ
  d : ℕ
deriving DecidableEq, Repr

def leapYear (y : ℤ) : Bool := (y % 4 == 0 && y % 100 != 0) || y % 400 == 0

def daysInMonth (y : ℤ) (m : ℕ) : ℕ :=
  if m == 2 then (if leapYear y then 29 else 28)
  else if [4, 6, 9, 11].contains m then 30
  else 31

/-- Split a character list at dashes (Python `s.split("-")`). -/
def splitOnDash : List Char → List Char → List (List Char)
  | [], acc => [acc.reverse]
  | c :: t, acc =>
    if c == '-' then acc.reverse :: splitOnDash t [] else splitOnDash t (c :: acc)

/-- The `%Y` field of CPython `_strptime`: exactly four digits. -/
def yearFieldOk (ys : List Char) : Bool := ys.length == 4 && ys.all isDigitC

/-- The `%m` field of CPython `_strptime`: one or two digits whose value is
1 to 12 (the alternation of 1 followed by 0-2, 0 followed by 1-9, and a
single digit 1-9). -/
def monthFieldOk (ms : List Char) : Bool :=
  ms.all isDigitC && decide (1 ≤ ms.length) && decide (ms.length ≤ 2) &&
  decide (1 ≤ digitsVal ms) && decide (digitsVal ms ≤ 12)

/-- The `%d` field of CPython `_strptime`: one or two digits whose value is
1 to 31 (the alternation of 3 followed by 0-1, 1-2 followed by any digit,
0 followed by 1-9, and a single digit 1-9), or a space-padded single digit
1-9. -/
def dayField (ds : List Char) : Option ℕ :=
  match ds with
  | [' ', c] => if isDigitC c && c != '0' then some (digitsVal [c]) else none
  | _ =>
    if ds.all isDigitC && decide (1 ≤ ds.length) && decide (ds.length ≤ 2) &&
       decide (1 ≤ digitsVal ds) && decide (digitsVal ds ≤ 31) then
      some (digitsVal ds)
    else none

/-- Embeds `datetime.strptime(s, "%Y-%m-%d")`.  `_strptime` anchors the
compiled pattern `%Y-%m-%d` over the whole string; since none of the three
field patterns can consume a dash, this is exactly: split at dashes into
three parts matching the `%Y`, `%m` and `%d` field patterns.  The
subsequent `datetime` construction rejects year 0 and a day beyond the
month's length; `none` models the `ValueError` that the source catches. -/
def parseYmd (s : String) : Option YMD :=
  match splitOnDash s.data [] with
  | [ys, ms, ds] =>
    if yearFieldOk ys && monthFieldOk ms then
      match dayField ds with
      | some d =>
        let y : ℤ := (digitsVal ys : ℤ)
        let m := digitsVal ms
        if 1 ≤ y ∧ d ≤ daysInMonth y m then some ⟨y, m, d⟩
        else none
      | none => none
    else none
  | _ => none

/-- Proleptic-Gregorian day number (days since 1970-01-01, the standard
days-from-civil formula with floor division).  `datetime` subtraction
`(hoy - fecha_doc).days` equals the difference of day numbers because the
time-of-day part of `datetime.today()` is nonnegative and below one day. -/
def dayNumber (dt : YMD) : ℤ :=
  let y := if dt.m ≤ 2 then dt.y - 1 else dt.y
  let era := Int.ediv y 400
  let yoe := y - era * 400
  let mp := Int.emod ((dt.m : ℤ) + 9) 12
  let doy := Int.ediv (153 * mp + 2) 5 + (dt.d : ℤ) - 1
  let doe := yoe * 365 + Int.ediv yoe 4 - Int.ediv yoe 100 + doy
  era * 146097 + doe - 719468

/-- Embeds `validar_fecha_certificacion_bancaria` (lines 630-661).  `hoy` is the
day number of `datetime.today()`; the parse-failure message detail of
`str(e)` is abstracted to the fixed prefix of the f-string. -/
def validar_fecha_certificacion_bancaria (data_doc16 : Rec) (hoy : ℤ) (ts : String)
    (logs : List LogEntry) : List LogEntry :=
  match getV data_doc16 "fecha_expedicion" with
  | none => agregar_log logs ts "CERTIFICACION_BANCARIA" "WARNING"
      "No se encontró fecha de expedición en la certificación bancaria."
  | some fecha_str =>
    if fecha_str == "" then
      agregar_log logs ts "CERTIFICACION_BANCARIA" "WARNING"
        "No se encontró fecha de expedición en la certificación bancaria."
    else
      match parseYmd fecha_str with
      | none => agregar_log logs ts "CERTIFICACION_BANCARIA" "ERROR"
          "Error al procesar fecha de expedición: "
      | some fecha_doc =>
        let diferencia_dias := hoy - dayNumber fecha_doc
        if diferencia_dias > 30 then
          agregar_log logs ts "CERTIFICACION_BANCARIA" "WARNING"
            ("La certificación bancaria tiene " ++ toString diferencia_dias ++
             " días de expedición (mayor a 30 días).")
        else
          agregar_log logs ts "CERTIFICACION_BANCARIA" "INFO"
            ("La certificación bancaria fue expedida hace " ++ toString diferencia_dias ++
             " días (vigente).")

/-! ### Master dictionary and consolidation (core_extractor.py:667-808) -/

/-- One `MASTER_ROWS` entry: document id, source label, variable category,
variable name, declared type, description. -/
structure MasterRow where
  doc_id : String
  fuente : String
  caracterizacion_variable : String
  nombre : String
  tipo_variable : String
  caracterizacion : String

/-- Embeds `MASTER_ROWS` (lines 667-745), in declaration order. -/
def MASTER_ROWS : List MasterRow := [
  ⟨"DOC14", "DOC14_RUT_DIAN", "Identificación personal",
   "tipo_documento", "texto",
   "Tipo documento"⟩,
  ⟨"DOC14", "DOC14_RUT_DIAN", "Identificación personal",
   "numero_identificacion", "texto",
   "Número de identificación"⟩,
  ⟨"DOC14", "DOC14_RUT_DIAN", "Identificación personal",
   "primer_apellido", "texto",
   "Primer apellido"⟩,
  ⟨"DOC14", "DOC14_RUT_DIAN", "Identificación personal",
   "segundo_apellido", "texto",
   "Segundo apellido"⟩,
  ⟨"DOC14", "DOC14_RUT_DIAN", "Identificación personal",
   "primer_nombre", "texto",
   "Primer nombre"⟩,
  ⟨"DOC14", "DOC14_RUT_DIAN", "Identificación personal",
   "otros_nombres", "texto",
   "Otros nombres"⟩,
  ⟨"DOC12", "DOC12_DocumentoIdentificacion", "Identificación del documento",
   "doc_tipo", "texto",
   "Tipo (diccionario)"⟩,
  ⟨"DOC12", "DOC12_DocumentoIdentificacion", "Datos del documento",
   "doc_pais_emisor", "texto",
   "País emisor"⟩,
  ⟨"DOC12", "DOC12_DocumentoIdentificacion", "Datos del documento",
   "doc_tipo_documento", "texto",
   "Tipo documento"⟩,
  ⟨"DOC12", "DOC12_DocumentoIdentificacion", "Datos del documento",
   "doc_numero", "texto",
   "Número"⟩,
  ⟨"DOC12", "DOC12_DocumentoIdentificacion", "Datos del documento",
   "doc_apellidos", "texto",
   "Apellidos"⟩,
  ⟨"DOC12", "DOC12_DocumentoIdentificacion", "Datos del documento",
   "doc_nombres", "texto",
   "Nombres"⟩,
  ⟨"DOC12", "DOC12_DocumentoIdentificacion", "Datos del documento",
   "doc_fecha_nacimiento", "fecha",
   "Fecha de nacimiento"⟩,
  ⟨"DOC12", "DOC12_DocumentoIdentificacion", "Datos del documento",
   "doc_lugar_nacimiento", "texto",
   "Lugar de nacimiento"⟩,
  ⟨"DOC12", "DOC12_DocumentoIdentificacion", "Datos del documento",
   "doc_sexo", "texto",
   "Sexo"⟩,
  ⟨"DOC12", "DOC12_DocumentoIdentificacion", "Datos del documento",
   "doc_estatura", "texto",
   "Estatura"⟩,
  ⟨"DOC12", "DOC12_DocumentoIdentificacion", "Datos del documento",
   "doc_grupo_sanguineo_rh", "texto",
   "Grupo sanguíneo y RH"⟩,
  ⟨"DOC12", "DOC12_DocumentoIdentificacion", "Datos del documento",
   "doc_fecha_expedicion", "fecha",
   "Fecha de expedición"⟩,
  ⟨"DOC12", "DOC12_DocumentoIdentificacion", "Datos del documento",
   "doc_lugar_expedicion", "texto",
   "Lugar de expedición"⟩,
  ⟨"DOC12", "DOC12_DocumentoIdentificacion", "Datos del documento",
   "doc_registrador", "texto",
   "Registrador"⟩,
  ⟨"DOC12", "DOC12_DocumentoIdentificacion", "Datos del documento",
   "doc_codigo_barras", "texto",
   "Código de barras"⟩,
  ⟨"DOC12", "DOC12_DocumentoIdentificacion", "Biométricos (opcional)",
   "doc_huella_indice", "texto",
   "Huella índice"⟩,
  ⟨"DOC12", "DOC12_DocumentoIdentificacion", "Firma (opcional)",
   "doc_firma_titular", "texto",
   "Firma titular"⟩,
  ⟨"DOC16", "DOC16_CertificacionBancaria", "Identificación del documento",
   "doc_tipo", "texto",
   "Certificación bancaria / Certifica a quien interese que…"⟩,
  ⟨"DOC16", "DOC16_CertificacionBancaria", "Entidad financiera",
   "banco_nombre", "texto",
   "Nombre banco"⟩,
  ⟨"DOC16", "DOC16_CertificacionBancaria", "Entidad financiera",
   "banco_nit", "texto",
   "NIT banco"⟩,
  ⟨"DOC16", "DOC16_CertificacionBancaria", "Producto",
   "producto_tipo", "texto",
   "Tipo producto (Cuenta de ahorro / corriente)"⟩,
  ⟨"DOC16", "DOC16_CertificacionBancaria", "Producto",
   "producto_nombre", "texto",
   "Nombre del producto"⟩,
  ⟨"DOC16", "DOC16_CertificacionBancaria", "Producto",
   "numero_cuenta", "texto",
   "Número de cuenta"⟩,
  ⟨"DOC16", "DOC16_CertificacionBancaria", "Producto",
   "fecha_apertura", "fecha",
   "Fecha de apertura"⟩,
  ⟨"DOC16", "DOC16_CertificacionBancaria", "Titular",
   "titular_nombre", "texto",
   "Nombre del titular"⟩,
  ⟨"DOC16", "DOC16_CertificacionBancaria", "Titular",
   "titular_tipo_documento", "texto",
   "Tipo documento titular"⟩,
  ⟨"DOC16", "DOC16_CertificacionBancaria", "Titular",
   "titular_num_documento", "texto",
   "Número documento titular"⟩,
  ⟨"DOC16", "DOC16_CertificacionBancaria", "Estado",
   "estado_cuenta", "texto",
   "Estado (ACTIVA/INACTIVA)"⟩,
  ⟨"DOC16", "DOC16_CertificacionBancaria", "Expedición",
   "fecha_expedicion", "texto",
   "Fecha de expedición (día/mes/año en texto)"⟩,
  ⟨"DOC16", "DOC16_CertificacionBancaria", "Expedición",
   "ciudad_expedicion", "texto",
   "Ciudad (si está indicada)"⟩
]

/-- Embeds `campos_esperados_por_doc` (lines 751-753). -/
def campos_esperados_por_doc (doc_id : String) : List String :=
  (MASTER_ROWS.filter fun r => r.doc_id == doc_id).map fun r => r.nombre

/-- A field counts as non-empty unless it is null or blank after trimming
(`calcular_completitud`'s loop body). -/
def fieldFilled (r : Rec) (k : String) : Bool :=
  match getV r k with
  | none => false
  | some s => !(pyStrip s == "")

/-- Python `round(q, 1)` modelled over the rationals (round half up to one
decimal; no value used by the pipeline falls on a tie, and the float error
of the source is several orders below the 100/36 step of its operands). -/
def round1 (q : ℚ) : ℚ := ((⌊10 * q + 1 / 2⌋ : ℤ) : ℚ) / 10

/-- Embeds `calcular_completitud` (lines 755-767). -/
def calcular_completitud (data : Option Rec) (campos_esperados : List String) : Option ℚ :=
  match data with
  | none => none
  | some r =>
    if r.isEmpty || campos_esperados.isEmpty then none
    else
      let llenos := campos_esperados.countP fun k => fieldFilled r k
      some (round1 ((100 * llenos : ℚ) / campos_esperados.length))

/-- Embeds `contar_warnings` (lines 769-770). -/
def contar_warnings (logs : List LogEntry) (documento : String) : ℕ :=
  logs.countP fun e => e.tipo == "WARNING" && e.documento == documento

/-- A master row with its `Valor` column: `none` when the loop never
assigned the key (the kind was absent), `some v` when it assigned `v`
(possibly null).  In the exported table both unassigned and null render as
an empty cell. -/
structure MasterRowV extends MasterRow where
  valor : Option (Option String)

/-- The outward value of a `Valor` cell (missing and null coincide). -/
def valorOut (r : MasterRowV) : Option String := r.valor.bind id

/-- The fixed document-type literal forced for the national-ID rows. -/
def ccDocTipoLiteral : String :=
  "Documento de identidad (Cédula de ciudadanía) – imagen anverso/reverso"

/-- The `Valor` assigned to one master row by the loops of
`fill_master_values`, as a function of the (truthiness-filtered) per-kind
records. -/
def fillValor (rutT ccT d16T : Option Rec) (r : MasterRow) : Option (Option String) :=
  if r.doc_id == "DOC14" then
    match rutT with
    | some rd => some (getV rd r.nombre)
    | none => none
  else if r.doc_id == "DOC12" then
    match ccT with
    | some cd =>
      if r.nombre == "doc_tipo" then some (some ccDocTipoLiteral)
      else some (getV cd r.nombre)
    | none => none
  else
    match d16T with
    | some dd =>
      if r.nombre == "doc_tipo" then some (some "Certificación bancaria")
      else some (getV dd r.nombre)
    | none => none

/-- Embeds `fill_master_values` (lines 773-808).  The three per-kind loops of the
source touch disjoint row sets (split by `doc_id`), so they are embedded as
one map over `MASTER_ROWS`; the truthiness guards (`if rut_data:`) and the
cédula copy with its two `setdefault` calls are the source's. -/
def fill_master_values (rut_data cc_data doc16_data : Option Rec) : List MasterRowV :=
  let rutT := if truthy rut_data then rut_data else none
  let ccT : Option Rec :=
    if truthy cc_data then
      (cc_data.map fun c =>
        setdefaultV (setdefaultV c "doc_pais_emisor" "República de Colombia")
          "doc_tipo_documento" "Cédula de ciudadanía")
    else none
  let d16T := if truthy doc16_data then doc16_data else none
  MASTER_ROWS.map fun r => ⟨r, fillValor rutT ccT d16T r⟩

/-! ### JSON parsing (`safe_json_loads`, core_extractor.py:54-58)

The prompts demand a flat JSON object whose values are strings or null;
`json.loads` is embedded for that fragment (object of string/null members,
no escape sequences), with every other input rejected, as `json.loads`
rejects non-JSON text.  Duplicate keys overwrite, as for a Python dict. -/

def lbraceC : Char := Char.ofNat 123

def rbraceC : Char := Char.ofNat 125

/-- JSON insignificant whitespace. -/
def jsonWs (c : Char) : Bool := c == ' ' || c == '\t' || c == '\n' || c == '\r'

def skipWs (l : List Char) : List Char := l.dropWhile jsonWs

/-- Characters of a JSON string up to the closing quote. -/
def jstrChars : List Char → Option (List Char × List Char)
  | [] => none
  | c :: t =>
    if c == '"' then some ([], t)
    else if c == '\\' then none
    else (jstrChars t).map fun p => (c :: p.1, p.2)

/-- A JSON string literal. -/
def parseJStr (l : List Char) : Option (String × List Char) :=
  match l with
  | c :: t => if c == '"' then (jstrChars t).map fun p => (String.mk p.1, p.2) else none
  | _ => none

/-- A JSON value of the fragment: a string or `null`. -/
def parseJVal (l : List Char) : Option (Option String × List Char) :=
  match l with
  | 'n' :: 'u' :: 'l' :: 'l' :: t => some (none, t)
  | _ => (parseJStr l).map fun p => (some p.1, p.2)

/-- The members of a JSON object, fuelled by the input length. -/
def parseMembers : ℕ → Rec → List Char → Option (Rec × List Char)
  | 0, _, _ => none
  | fuel + 1, acc, l =>
    match parseJStr (skipWs l) with
    | none => none
    | some (k, r1) =>
      match skipWs r1 with
      | ':' :: r2 =>
        match parseJVal (skipWs r2) with
        | none => none
        | some (v, r3) =>
          let acc2 := setV acc k v
          match skipWs r3 with
          | ',' :: r4 => parseMembers fuel acc2 r4
          | r4 => some (acc2, r4)
      | _ => none

/-- Embeds `json.loads` on the fragment: errors carry a diagnostic string. -/
def parseJsonObj (s : String) : Except String Rec :=
  match skipWs s.data with
  | c :: t =>
    if c == lbraceC then
      match skipWs t with
      | d :: t2 =>
        if d == rbraceC then
          if (skipWs t2).isEmpty then .ok [] else .error "Extra data"
        else
          match parseMembers (s.length + 1) [] (d :: t2) with
          | some (r, rest) =>
            match rest with
            | e :: t3 =>
              if e == rbraceC then
                if (skipWs t3).isEmpty then .ok r else .error "Extra data"
              else .error "Expecting delimiter"
            | [] => .error "Expecting delimiter"
          | none => .error "Expecting property name or value"
      | [] => .error "Expecting property name"
    else .error "Expecting value"
  | [] => .error "Expecting value"

/-- Prefix fence strip `re.sub(r"^` ++ "```" ++ `(?:json)?\s*", "", raw)`. -/
def stripFencePrefix (s : String) : String :=
  match eatLit "```json".data s.data with
  | some r => String.mk (r.dropWhile pyWs)
  | none =>
    match eatLit "```".data s.data with
    | some r => String.mk (r.dropWhile pyWs)
    | none => s

/-- Suffix fence strip `re.sub(r"\s*` ++ "```" ++ `$", "", raw)`. -/
def stripFenceSuffix (s : String) : String :=
  match eatLit "```".data s.data.reverse with
  | some r => String.mk (r.dropWhile pyWs).reverse
  | none => s

/-- Embeds `safe_json_loads` (lines 54-58): strip, remove markdown fences, parse;
a parse failure is the raised `json.JSONDecodeError`. -/
def safe_json_loads (raw : String) : Except String Rec :=
  parseJsonObj (stripFenceSuffix (stripFencePrefix (pyStrip raw)))

/-! ### The pipeline orchestrator (`run_pipeline`, core_extractor.py:839-999) -/

/-- Embeds `DocItem` (lines 27-31). -/
structure DocItem where
  path : String
  original_name : String
  content_type : String
deriving DecidableEq, Repr

/-- Embeds `guess_doc_id_by_filename` (lines 821-833). -/
def guess_doc_id_by_filename (filename : String) : Option String :=
  let f := pyUpper filename
  if strContains f "RUT" || strContains f "DOC14" then some "DOC14"
  else if strContains f "CED" || strContains f "CEDULA" || strContains f "DOC12" ||
    strContains f "DOCUMENTOIDENTIFICACION" || strContains f "DOCU" then some "DOC12"
  else if strContains f "CERTIFICACION" || strContains f "BANCARIA" ||
    strContains f "DOC16" then some "DOC16"
  else none

/-- The bucket of one kind, in arrival order (the `buckets` dict of step 1
filled by one pass is the per-kind filter of the input list). -/
def bucket (k : Option String) (items : List DocItem) : List DocItem :=
  items.filter fun it => guess_doc_id_by_filename it.original_name == k

/-- The pipeline's effectful collaborators as oracles.  `cleanEmbeddedText`
is `limpiar_texto_para_llm(extract_text_pymupdf(open(path).read()))`;
`cleanOcrText` is the same cleaning applied to the EasyOCR reading of the
rendered pages (zoom 2.5), used both for the cédula and as the DOC16
fallback; `field26Pages` gives, per page containing the identity-number
label, the OCR lines of the label crop; `llm*` are the chat-model answers
as functions of the text placed in the prompt (temperature 0); `hoy` is
today's day number and `nowStr` the log timestamp string. -/
structure Env where
  cleanEmbeddedText : DocItem → String
  cleanOcrText : DocItem → String
  field26Pages : DocItem → List (List String)
  llmRut : String → String
  llmCc : String → String
  llmDoc16 : String → String
  hoy : ℤ
  nowStr : String

/-- The identity-number fallback of the RUT section (lines 889-905):
`id_ocr` is attempted only when the normalized value is suspicious; when no
OCR value was obtained the strict field-26 validation runs, and the
provenance tag is stored in the record itself. -/
def rutNumeroFallback (env : Env) (it : DocItem) (rut_texto : String) (rd : Rec) : Rec :=
  let rut_num := getV rd "numero_identificacion"
  let id_ocr :=
    if numero_id_es_sospechoso rut_num then
      ocr_numero_identificacion_desde_campo26 (env.field26Pages it)
    else none
  match id_ocr with
  | some v =>
    setV (setV rd "numero_identificacion" (some v)) "_fuente_numero_identificacion"
      (some "ocr_campo26")
  | none =>
    match validar_numero_identificacion rut_texto (getV rd "numero_identificacion") with
    | some nv =>
      setV (setV rd "numero_identificacion" (some nv)) "_fuente_numero_identificacion"
        (some "validado_campo26")
    | none => setV rd "_fuente_numero_identificacion" (some "ia_no_validado")

/-- The RUT text fed to the model (lines 880-884): cleaned embedded text,
blanked when shorter than 100 characters. -/
def rutTextoOf (env : Env) (it : DocItem) : String :=
  let t0 := env.cleanEmbeddedText it
  if t0.length < 100 then "" else t0

/-- Lines 887-905 as one function of the parsed model draft: normalization
with rule correction, then the identity-number fallback. -/
def rutSection (env : Env) (it : DocItem) (rut_texto : String) (parsed : Rec) : Rec :=
  rutNumeroFallback env it rut_texto (normalizar_campos_rut parsed rut_texto)

/-- Step 2, the RUT section (lines 875-910): returns the record and its
completeness metric. -/
def processRUT (env : Env) (it : DocItem) : Except String (Rec × Option ℚ) := do
  let rut_texto := rutTextoOf env it
  let parsed ← safe_json_loads (env.llmRut rut_texto)
  let rd := rutSection env it rut_texto parsed
  pure (rd, calcular_completitud (some rd) (campos_esperados_por_doc "DOC14"))

/-- Step 3, the cédula section (lines 916-937). -/
def processCC (env : Env) (it : DocItem) : Except String (Rec × Option ℚ) := do
  let cc_ocr_text := env.cleanOcrText it
  let parsed ← safe_json_loads (env.llmCc cc_ocr_text)
  let cc_data := normalizar_campos_cc parsed
  let cc_eval := setV cc_data "doc_tipo" (some ccDocTipoLiteral)
  let cc_eval := setdefaultV cc_eval "doc_pais_emisor" "República de Colombia"
  let cc_eval := setdefaultV cc_eval "doc_tipo_documento" "Cédula de ciudadanía"
  pure (cc_data, calcular_completitud (some cc_eval) (campos_esperados_por_doc "DOC12"))

/-- Embeds `extract_doc16_text` (lines 582-592). -/
def extract_doc16_text (env : Env) (it : DocItem) : String :=
  let text := env.cleanEmbeddedText it
  if 120 ≤ text.length then text else env.cleanOcrText it

/-- Step 4, the bank-certification section (lines 943-960). -/
def processDOC16 (env : Env) (it : DocItem) : Except String (Rec × Option ℚ) := do
  let doc16_texto := extract_doc16_text env it
  let parsed ← safe_json_loads (env.llmDoc16 doc16_texto)
  let doc16_data := normalizar_campos_doc16 parsed doc16_texto
  let doc16_eval := setV doc16_data "doc_tipo" (some "Certificación bancaria")
  pure (doc16_data, calcular_completitud (some doc16_eval) (campos_esperados_por_doc "DOC16"))

/-- One kind's section: run it on the first bucketed item, if any. -/
def kindResult (f : DocItem → Except String (Rec × Option ℚ)) :
    Option DocItem → Except String (Option (Rec × Option ℚ))
  | some it => (f it).map some
  | none => .ok none

/-- Embeds `Run Metrics`: per-kind timing presence (wall-clock seconds are not
modelled; `some ()` marks a measured section), per-kind completeness and
per-subject warning counts, mirroring the `metricas` dict. -/
structure Metricas where
  tiempoRUT : Option Unit
  tiempoCEDULA : Option Unit
  tiempoDOC16 : Option Unit
  compRUT : Option ℚ
  compCEDULA : Option ℚ
  compDOC16 : Option ℚ
  warnRUT : ℕ
  warnCEDULA : ℕ
  warnDOC16 : ℕ
  warnCRUZADA : ℕ
deriving DecidableEq, Repr

/-- The per-run payload that does not depend on the upload listing. -/
structure CoreResult where
  rut_data : Option Rec
  cc_data : Option Rec
  doc16_data : Option Rec
  df_master : List MasterRowV
  logs : List LogEntry
  metricas : Metricas

/-- The full `run_pipeline` return value (the Excel bytes are the
serialization of `df_master` and are not separately modelled). -/
structure PipelineResult extends CoreResult where
  resumenDOC14 : List String
  resumenDOC12 : List String
  resumenDOC16 : List String
  resumenUNKNOWN : List String

/-- Steps 2-6 of `run_pipeline` as a function of the first item of each
kind's bucket: the extraction sections in source order, then the
validation block (step 5), the warning metrics and the consolidation. -/
def pipelineCore (env : Env) (h14 h12 h16 : Option DocItem) : Except String CoreResult := do
  let rutPart ← kindResult (processRUT env) h14
  let ccPart ← kindResult (processCC env) h12
  let d16Part ← kindResult (processDOC16 env) h16
  let rut_data := rutPart.map Prod.fst
  let cc_data := ccPart.map Prod.fst
  let doc16_data := d16Part.map Prod.fst
  let logs0 := inicializar_logs
  let logs1 := if truthy cc_data then
      validar_cedula_vacia ((cc_data.getD [])) env.nowStr logs0
    else logs0
  let logs2 := if truthy doc16_data then
      validar_fecha_certificacion_bancaria (doc16_data.getD []) env.hoy env.nowStr logs1
    else logs1
  let logs3 := if truthy rut_data && truthy cc_data then
      validar_rut_vs_cedula (rut_data.getD []) (cc_data.getD []) env.nowStr logs2
    else logs2
  let metricas : Metricas :=
    ⟨rutPart.map fun _ => (), ccPart.map fun _ => (), d16Part.map fun _ => (),
     (rutPart.map Prod.snd).bind id, (ccPart.map Prod.snd).bind id,
     (d16Part.map Prod.snd).bind id,
     contar_warnings logs3 "RUT", contar_warnings logs3 "CEDULA",
     contar_warnings logs3 "CERTIFICACION_BANCARIA",
     contar_warnings logs3 "VALIDACION_CRUZADA"⟩
  let df_master := fill_master_values rut_data cc_data doc16_data
  pure ⟨rut_data, cc_data, doc16_data, df_master, logs3, metricas⟩

/-- Embeds `run_pipeline` (lines 839-999). -/
def run_pipeline (env : Env) (items : List DocItem) : Except String PipelineResult :=
  let b14 := bucket (some "DOC14") items
  let b12 := bucket (some "DOC12") items
  let b16 := bucket (some "DOC16") items
  let bU := bucket none items
  (pipelineCore env b14.head? b12.head? b16.head?).map fun core =>
    ⟨core, b14.map (fun x => x.original_name), b12.map (fun x => x.original_name),
     b16.map (fun x => x.original_name), bU.map (fun x => x.original_name)⟩

/-! ### Specification-side definitions for the identity-number policy

`rutPolicySpec` transcribes the spec's policy (section 4.4, design note on
ordered strategy lists) with the one amendment the code forces: the
suspicion test and the kept fallback value use the record's current
(rule-corrected and field-26-validated) identity number, not the raw model
answer.  It is written as an ordered list of named strategies, to be
compared with the source's nested-conditional `rutNumeroFallback`. -/

/-- Strategy 1: when the current value is suspicious, the focused OCR
re-read of the label crop, tagged as the OCR region match. -/
def strategyOcrRegion (env : Env) (it : DocItem) (rd : Rec) :
    Option (Option String × String) :=
  if numero_id_es_sospechoso (getV rd "numero_identificacion") then
    (ocr_numero_identificacion_desde_campo26 (env.field26Pages it)).map fun v =>
      (some v, "ocr_campo26")
  else none

/-- Strategy 2: the strict regex anchored to the labeled field in the
extracted text, tagged as the text pattern match. -/
def strategyTextPattern (texto : String) (rd : Rec) : Option (Option String × String) :=
  (validar_numero_identificacion texto (getV rd "numero_identificacion")).map fun v =>
    (some v, "validado_campo26")

/-- The spec's policy as an ordered strategy list: the first strategy that
yields a value wins and stamps its provenance tag; when none succeeds the
current value is kept and tagged as unvalidated. -/
def rutPolicySpec (env : Env) (it : DocItem) (texto : String) (rd : Rec) : Rec :=
  match [strategyOcrRegion env it rd, strategyTextPattern texto rd].findSome? id with
  | some (v, tag) =>
    setV (setV rd "numero_identificacion" v) "_fuente_numero_identificacion" (some tag)
  | none => setV rd "_fuente_numero_identificacion" (some "ia_no_validado")

/-- The claim's reading of suspicion: the raw model answer, digit-filtered,
has a well-formed 8-10 digit length, so by the claim's step (1)-(2) no
focused OCR re-read may be attempted for it. -/
def modelValueWellFormed (parsed : Rec) : Prop :=
  match getV parsed "numero_identificacion" with
  | some s => 8 ≤ (digitsOf s).length ∧ (digitsOf s).length ≤ 10
  | none => False

/-- Claim C3 as written: with a well-formed model value the OCR re-read is
never what provides the accepted value. -/
def c3ClaimAsWritten : Prop :=
  ∀ (env : Env) (it : DocItem) (texto : String) (parsed : Rec),
    modelValueWellFormed parsed →
    getV (rutSection env it texto parsed) "_fuente_numero_identificacion" ≠
      some "ocr_campo26"

/-! ### Deduplication by kind (for the duplicate-upload claim) -/

/-- Keep, per classified kind, only the first item of that kind (unknown
items are kept unconditionally). -/
def keepFirstAux (seen : List String) : List DocItem → List DocItem
  | [] => []
  | it :: t =>
    match guess_doc_id_by_filename it.original_name with
    | none => it :: keepFirstAux seen t
    | some k => if seen.contains k then keepFirstAux seen t else it :: keepFirstAux (k :: seen) t

def keepFirstPerKind (items : List DocItem) : List DocItem := keepFirstAux [] items

/-! ### Concrete inputs for counterexamples and witnesses -/

/-- An environment with constant oracle answers. -/
def constEnv (rutRaw ccRaw d16Raw : String) (pages : List (List String)) : Env :=
  ⟨fun _ => "", fun _ => "x", fun _ => pages,
   fun _ => rutRaw, fun _ => ccRaw, fun _ => d16Raw, 0, "t"⟩

def itemRUT : DocItem := ⟨"a.pdf", "RUT.pdf", "application/pdf"⟩

def itemCC : DocItem := ⟨"b.pdf", "CEDULA.pdf", "application/pdf"⟩

def itemBank : DocItem := ⟨"c.pdf", "BANCARIA.pdf", "application/pdf"⟩

/-! ### Dictionary-operation lemmas -/

lemma getV_setV (r : Rec) (k k' : String) (w : Option String) :
    getV (setV r k w) k' = if k' = k then w else getV r k' := by
  induction r with
  | nil =>
    by_cases he : k' = k
    · subst he; simp [setV, getV]
    · have he' : ¬ (k = k') := fun h => he h.symm
      simp [setV, getV, he, he']
  | cons p t ih =>
    by_cases hp : p.1 = k
    · have hset : setV (p :: t) k w = (k, w) :: t := by simp [setV, hp]
      rw [hset]
      by_cases he : k' = k
      · subst he; simp [getV]
      · have he' : ¬ (k = k') := fun h => he h.symm
        simp [getV, he, he', hp]
    · have hset : setV (p :: t) k w = p :: setV t k w := by simp [setV, hp]
      rw [hset]
      by_cases hpk : p.1 = k'
      · have he : ¬ k' = k := fun h => hp (by rw [hpk, h])
        simp [getV, hpk, he]
      · simp only [getV, hpk, if_neg (by simpa using hpk)]
        simpa [hpk] using ih

lemma getV_setdefaultV (r : Rec) (k k' : String) (w : String) (hne : k' ≠ k) :
    getV (setdefaultV r k w) k' = getV r k' := by
  induction r with
  | nil =>
    have hne' : ¬ (k = k') := fun h => hne h.symm
    simp [setdefaultV, getV, hne']
  | cons p t ih =>
    by_cases hp : p.1 = k
    · simp [setdefaultV, hp]
    · have hset : setdefaultV (p :: t) k w = p :: setdefaultV t k w := by
        simp [setdefaultV, hp]
      rw [hset]
      by_cases hpk : p.1 = k'
      · simp [getV, hpk]
      · simp only [getV, beq_iff_eq, if_neg hpk]
        exact ih

/-! ### Inversion lemmas for the scanners -/

lemma searchFirst_eq_some {α : Type} (m : List Char → Option α) (l : List Char) (a : α)
    (h : searchFirst m l = some a) : ∃ l', m l' = some a := by
  induction l with
  | nil => exact ⟨[], h⟩
  | cons c t ih =>
    unfold searchFirst at h
    cases hm : m (c :: t) with
    | some b =>
      rw [hm] at h
      simp only [Option.orElse] at h
      exact ⟨c :: t, by rw [hm, h]⟩
    | none =>
      rw [hm] at h
      simp only [Option.orElse] at h
      exact ih h

lemma findSome?_eq_some_mem {α β : Type} (f : α → Option β) (l : List α) (b : β)
    (h : l.findSome? f = some b) : ∃ a, a ∈ l ∧ f a = some b := by
  induction l with
  | nil => simp [List.findSome?] at h
  | cons c t ih =>
    rw [List.findSome?_cons] at h
    cases hc : f c with
    | some d =>
      rw [hc] at h
      exact ⟨c, List.mem_cons_self c t, hc.trans h⟩
    | none =>
      rw [hc] at h
      obtain ⟨a, ha, hfa⟩ := ih h
      exact ⟨a, List.mem_cons_of_mem c ha, hfa⟩

lemma repSplits_mem (p : Char → Bool) (mn mx : ℕ) (l t r : List Char)
    (h : (t, r) ∈ repSplits p mn mx l) :
    mn ≤ t.length ∧ t.length ≤ mx ∧ t.all p = true := by
  unfold repSplits at h
  by_cases hc : min mx (l.takeWhile p).length < mn
  · simp [hc] at h
  · simp only [hc, if_false, List.mem_map, List.mem_range] at h
    obtain ⟨i, hi, heq⟩ := h
    have ht : t = (l.takeWhile p).take (min mx (l.takeWhile p).length - i) := by
      have := congrArg Prod.fst heq; simpa using this.symm
    have hlen : t.length = min mx (l.takeWhile p).length - i := by
      rw [ht, List.length_take]
      omega
    refine ⟨by omega, by omega, ?_⟩
    rw [List.all_eq_true]
    intro c hcmem
    have : c ∈ l.takeWhile p := by
      rw [ht] at hcmem
      exact List.take_subset _ _ hcmem
    exact List.mem_takeWhile_imp this

lemma pickLongest_foldl_mem (t : List String) (c : String) :
    t.foldl (fun best x => if best.length < x.length then x else best) c = c ∨
    t.foldl (fun best x => if best.length < x.length then x else best) c ∈ t := by
  induction t generalizing c with
  | nil => exact Or.inl rfl
  | cons x xs ih =>
    simp only [List.foldl_cons]
    rcases ih (if c.length < x.length then x else c) with h | h
    · rw [h]
      by_cases hx : c.length < x.length
      · rw [if_pos hx]
        exact Or.inr (List.mem_cons_self x xs)
      · rw [if_neg hx]
        exact Or.inl rfl
    · exact Or.inr (List.mem_cons_of_mem x h)

lemma pickLongest_mem (l : List String) (s : String) (h : pickLongest l = some s) : s ∈ l := by
  cases l with
  | nil => simp [pickLongest] at h
  | cons c t =>
    simp only [pickLongest, Option.some.injEq] at h
    rcases pickLongest_foldl_mem t c with h' | h'
    · rw [← h, h']
      exact List.mem_cons_self c t
    · rw [← h]
      exact List.mem_cons_of_mem c h'

lemma digitsOf_all (s : String) : (digitsOf s).data.all isDigitC = true := by
  rw [List.all_eq_true]
  intro c hc
  exact (List.mem_filter.mp hc).2

lemma only_digits_some (x : Option String) (s : String) (h : only_digits x = some s) :
    s.data.all isDigitC = true ∧ s ≠ "" := by
  match x with
  | none => simp [only_digits] at h
  | some s0 =>
    simp only [only_digits, Option.bind] at h
    by_cases hd : digitsOf s0 == ""
    · rw [if_pos hd] at h; cases h
    · rw [if_neg hd] at h
      cases h
      exact ⟨digitsOf_all s0, by simpa using hd⟩

/-! ### Bounds of the identity-number extractors -/

lemma matchCampo26Strict_some (l : List Char) (s : String)
    (h : matchCampo26Strict l = some s) :
    s.data.all isDigitC = true ∧ 8 ≤ s.length ∧ s.length ≤ 10 := by
  unfold matchCampo26Strict at h
  cases h1 : eatLit "26.".data l with
  | none => rw [h1] at h; cases h
  | some r1 =>
    rw [h1] at h
    simp only [Option.bind] at h
    cases h2 : eatLit "Número de Identificación".data (r1.dropWhile pyWs) with
    | none => rw [h2] at h; cases h
    | some r2 =>
      rw [h2] at h
      simp only [Option.bind] at h
      obtain ⟨r3, _, h3⟩ := findSome?_eq_some_mem _ _ _ h
      cases h4 : (repSplits isDigitC 8 10 r3).head? with
      | none => rw [h4] at h3; cases h3
      | some pg =>
        rw [h4] at h3
        cases h3
        have hmem : pg ∈ repSplits isDigitC 8 10 r3 := by
          cases hr : repSplits isDigitC 8 10 r3 with
          | nil => rw [hr] at h4; cases h4
          | cons a t =>
            rw [hr] at h4
            simp only [List.head?, Option.some.injEq] at h4
            rw [← h4]
            exact List.mem_cons_self a t
        have := repSplits_mem isDigitC 8 10 r3 pg.1 pg.2 (by simpa using hmem)
        exact ⟨this.2.2, this.1, this.2.1⟩

lemma validar_bounds (texto : String) (cand : Option String) (s : String)
    (h : validar_numero_identificacion texto cand = some s) :
    s.data.all isDigitC = true ∧ 8 ≤ s.length ∧ s.length ≤ 10 := by
  cases cand with
  | none => simp [validar_numero_identificacion] at h
  | some c0 =>
    simp only [validar_numero_identificacion] at h
    split at h
    · cases h
    · split at h
      · obtain ⟨l', hl'⟩ := searchFirst_eq_some _ _ _ h
        exact matchCampo26Strict_some l' s hl'
      · cases h

lemma ocr_campo26_bounds (pages : List (List String)) (s : String)
    (h : ocr_numero_identificacion_desde_campo26 pages = some s) :
    s.data.all isDigitC = true ∧ 8 ≤ s.length ∧ s.length ≤ 10 := by
  unfold ocr_numero_identificacion_desde_campo26 at h
  obtain ⟨lines, _, hl⟩ := findSome?_eq_some_mem _ _ _ h
  have hmem := pickLongest_mem _ _ hl
  rw [List.mem_filterMap] at hmem
  obtain ⟨x, _, hx⟩ := hmem
  by_cases hb : 8 ≤ (digitsOf x).length ∧ (digitsOf x).length ≤ 10
  · rw [if_pos hb] at hx
    cases hx
    exact ⟨digitsOf_all x, hb.1, hb.2⟩
  · rw [if_neg hb] at hx; cases hx

lemma getV_normalizar_rut_numero (data : Rec) (texto : String) :
    getV (normalizar_campos_rut data texto) "numero_identificacion" =
      validar_numero_identificacion texto
        (getV (corregir_numero_identificacion data texto) "numero_identificacion") := by
  unfold normalizar_campos_rut
  simp only [List.foldl_cons, List.foldl_nil]
  simp [getV_setV]

lemma getV_normalizar_cc_doc_numero (data : Rec) :
    getV (normalizar_campos_cc data) "doc_numero" =
      only_digits (getV data "doc_numero") := by
  unfold normalizar_campos_cc
  simp [getV_setV]

lemma rutSection_numero_bounds (env : Env) (it : DocItem) (texto : String) (parsed : Rec)
    (s : String)
    (h : getV (rutSection env it texto parsed) "numero_identificacion" = some s) :
    s.data.all isDigitC = true ∧ 8 ≤ s.length ∧ s.length ≤ 10 := by
  unfold rutSection rutNumeroFallback at h
  set rd := normalizar_campos_rut parsed texto with hrd
  simp only [] at h
  by_cases hs : numero_id_es_sospechoso (getV rd "numero_identificacion")
  · rw [if_pos hs] at h
    cases ho : ocr_numero_identificacion_desde_campo26 (env.field26Pages it) with
    | some v =>
      rw [ho] at h
      rw [getV_setV, if_neg (by decide), getV_setV, if_pos rfl] at h
      cases h
      exact ocr_campo26_bounds _ _ ho
    | none =>
      rw [ho] at h
      cases hv : validar_numero_identificacion texto (getV rd "numero_identificacion") with
      | some nv =>
        rw [hv] at h
        rw [getV_setV, if_neg (by decide), getV_setV, if_pos rfl] at h
        cases h
        exact validar_bounds _ _ _ hv
      | none =>
        rw [hv] at h
        rw [getV_setV, if_neg (by decide)] at h
        rw [hrd, getV_normalizar_rut_numero] at h
        exact validar_bounds _ _ _ h
  · rw [if_neg hs] at h
    cases hv : validar_numero_identificacion texto (getV rd "numero_identificacion") with
    | some nv =>
      rw [hv] at h
      rw [getV_setV, if_neg (by decide), getV_setV, if_pos rfl] at h
      cases h
      exact validar_bounds _ _ _ hv
    | none =>
      rw [hv] at h
      rw [getV_setV, if_neg (by decide)] at h
      rw [hrd, getV_normalizar_rut_numero] at h
      exact validar_bounds _ _ _ h

/-! ### Inversion lemmas for the orchestrator -/

lemma run_pipeline_ok (env : Env) (items : List DocItem) (r : PipelineResult)
    (h : run_pipeline env items = .ok r) :
    ∃ core, pipelineCore env (bucket (some "DOC14") items).head?
        (bucket (some "DOC12") items).head? (bucket (some "DOC16") items).head? = .ok core ∧
      r.toCoreResult = core := by
  unfold run_pipeline at h
  simp only [] at h
  cases hc : pipelineCore env (bucket (some "DOC14") items).head?
      (bucket (some "DOC12") items).head? (bucket (some "DOC16") items).head? with
  | error e => rw [hc] at h; exact Except.noConfusion h
  | ok core =>
    rw [hc] at h
    simp only [Except.map, Except.ok.injEq] at h
    exact ⟨core, rfl, by rw [← h]⟩

lemma pipelineCore_ok (env : Env) (h14 h12 h16 : Option DocItem) (core : CoreResult)
    (h : pipelineCore env h14 h12 h16 = .ok core) :
    ∃ rutPart ccPart d16Part,
      kindResult (processRUT env) h14 = .ok rutPart ∧
      kindResult (processCC env) h12 = .ok ccPart ∧
      kindResult (processDOC16 env) h16 = .ok d16Part ∧
      core.rut_data = rutPart.map Prod.fst ∧
      core.cc_data = ccPart.map Prod.fst ∧
      core.doc16_data = d16Part.map Prod.fst := by
  unfold pipelineCore at h
  cases h1 : kindResult (processRUT env) h14 with
  | error e => rw [h1] at h; exact Except.noConfusion h
  | ok rutPart =>
    rw [h1] at h
    cases h2 : kindResult (processCC env) h12 with
    | error e => rw [h2] at h; exact Except.noConfusion h
    | ok ccPart =>
      rw [h2] at h
      cases h3 : kindResult (processDOC16 env) h16 with
      | error e => rw [h3] at h; exact Except.noConfusion h
      | ok d16Part =>
        rw [h3] at h
        simp only [Bind.bind, Except.bind, pure, Except.pure, Except.ok.injEq] at h
        refine ⟨rutPart, ccPart, d16Part, rfl, rfl, rfl, ?_, ?_, ?_⟩ <;> rw [← h]

lemma kindResult_ok_some (f : DocItem → Except String (Rec × Option ℚ))
    (h? : Option DocItem) (rec : Rec) (q : Option ℚ)
    (h : kindResult f h? = .ok (some (rec, q))) :
    ∃ it, h? = some it ∧ f it = .ok (rec, q) := by
  cases h? with
  | none => simp [kindResult] at h
  | some it =>
    simp only [kindResult] at h
    cases hf : f it with
    | error e => rw [hf] at h; exact Except.noConfusion h
    | ok p =>
      rw [hf] at h
      simp only [Except.map, Except.ok.injEq, Option.some.injEq] at h
      exact ⟨it, rfl, by rw [hf, h]⟩

lemma processRUT_ok (env : Env) (it : DocItem) (rec : Rec) (q : Option ℚ)
    (h : processRUT env it = .ok (rec, q)) :
    ∃ parsed, safe_json_loads (env.llmRut (rutTextoOf env it)) = .ok parsed ∧
      rec = rutSection env it (rutTextoOf env it) parsed := by
  unfold processRUT at h
  simp only [] at h
  cases hp : safe_json_loads (env.llmRut (rutTextoOf env it)) with
  | error e => rw [hp] at h; exact Except.noConfusion h
  | ok parsed =>
    rw [hp] at h
    simp only [Bind.bind, Except.bind, pure, Except.pure, Except.ok.injEq,
      Prod.mk.injEq] at h
    exact ⟨parsed, rfl, h.1.symm⟩

lemma processCC_ok (env : Env) (it : DocItem) (rec : Rec) (q : Option ℚ)
    (h : processCC env it = .ok (rec, q)) :
    ∃ parsed, safe_json_loads (env.llmCc (env.cleanOcrText it)) = .ok parsed ∧
      rec = normalizar_campos_cc parsed := by
  unfold processCC at h
  simp only [] at h
  cases hp : safe_json_loads (env.llmCc (env.cleanOcrText it)) with
  | error e => rw [hp] at h; exact Except.noConfusion h
  | ok parsed =>
    rw [hp] at h
    simp only [Bind.bind, Except.bind, pure, Except.pure, Except.ok.injEq,
      Prod.mk.injEq] at h
    exact ⟨parsed, rfl, h.1.symm⟩

/-! ### Completeness arithmetic -/

lemma round1_lt (c n : ℕ) (hn : 0 < n) (hn2 : n ≤ 1000) :
    round1 ((100 * c : ℚ) / n) < round1 ((100 * (c + 1) : ℚ) / n) := by
  unfold round1
  have hnq : (0 : ℚ) < n := by exact_mod_cast hn
  have key : 10 * ((100 * (c + 1) : ℚ) / n) = 10 * ((100 * c : ℚ) / n) + 1000 / n := by
    field_simp
    ring
  have h1 : (1 : ℚ) ≤ 1000 / n := by
    rw [le_div_iff hnq]
    have : (n : ℚ) ≤ 1000 := by exact_mod_cast hn2
    linarith
  have hle : 10 * ((100 * c : ℚ) / n) + 1 / 2 + 1 ≤ 10 * ((100 * (c + 1) : ℚ) / n) + 1 / 2 := by
    rw [key]; linarith
  have hfl : ⌊10 * ((100 * c : ℚ) / n) + 1 / 2⌋ + 1 ≤ ⌊10 * ((100 * (c + 1) : ℚ) / n) + 1 / 2⌋ := by
    calc ⌊10 * ((100 * c : ℚ) / n) + 1 / 2⌋ + 1
        = ⌊10 * ((100 * c : ℚ) / n) + 1 / 2 + 1⌋ := by
          rw [Int.floor_add_one]
      _ ≤ ⌊10 * ((100 * (c + 1) : ℚ) / n) + 1 / 2⌋ := Int.floor_le_floor hle
  have : (⌊10 * ((100 * c : ℚ) / n) + 1 / 2⌋ : ℚ) < (⌊10 * ((100 * (c + 1) : ℚ) / n) + 1 / 2⌋ : ℚ) := by
    exact_mod_cast (by omega : ⌊10 * ((100 * c : ℚ) / n) + 1 / 2⌋ < ⌊10 * ((100 * (c + 1) : ℚ) / n) + 1 / 2⌋)
  have h10 : (0 : ℚ) < 10 := by norm_num
  exact div_lt_div_of_pos_right this h10

lemma countP_update (l : List String) (hnd : l.Nodup) (k : String) (hk : k ∈ l)
    (p q : String → Bool) (hpq : ∀ x, x ≠ k → p x = q x) (hpk : p k = false)
    (hqk : q k = true) : l.countP q = l.countP p + 1 := by
  induction l with
  | nil => cases hk
  | cons a t ih =>
    rw [List.countP_cons, List.countP_cons]
    rcases List.mem_cons.mp hk with rfl | hkt
    · have hknt : k ∉ t := (List.nodup_cons.mp hnd).1
      have hcong : t.countP q = t.countP p := by
        apply List.countP_congr
        intro x hx
        have : x ≠ k := fun he => hknt (he ▸ hx)
        rw [hpq x this]
      rw [hcong, hpk, hqk]
      simp
    · have ha : a ≠ k := fun he => (List.nodup_cons.mp hnd).1 (he ▸ hkt)
      rw [ih (List.nodup_cons.mp hnd).2 hkt, hpq a ha]
      omega

lemma setV_ne_nil (r : Rec) (k : String) (v : Option String) : setV r k v ≠ [] := by
  cases r with
  | nil => simp [setV]
  | cons p t =>
    unfold setV
    by_cases hp : p.1 = k <;> simp [hp]

lemma calcular_some (r : Rec) (campos : List String) (hre : r.isEmpty = false)
    (hce : campos.isEmpty = false) :
    calcular_completitud (some r) campos =
      some (round1 ((100 * (campos.countP fun k => fieldFilled r k) : ℚ) / campos.length)) := by
  have hstep : calcular_completitud (some r) campos =
      if (r.isEmpty || campos.isEmpty) = true then none
      else some (round1 ((100 * (campos.countP fun k => fieldFilled r k) : ℚ) /
        campos.length)) := rfl
  rw [hstep, hre, hce]
  rfl

lemma completeness_strict_mono (campos : List String) (hnd : campos.Nodup)
    (h0 : campos ≠ []) (hlen : campos.length ≤ 1000) (data : Rec) (hne : data ≠ [])
    (k v : String) (hk : k ∈ campos) (hnull : getV data k = none)
    (hv : ¬ pyStrip v = "") :
    ∃ q q', calcular_completitud (some data) campos = some q ∧
      calcular_completitud (some (setV data k (some v))) campos = some q' ∧ q < q' := by
  have hde : data.isEmpty = false := by
    cases data with
    | nil => exact absurd rfl hne
    | cons a t => rfl
  have hce : campos.isEmpty = false := by
    cases campos with
    | nil => exact absurd rfl h0
    | cons a t => rfl
  have hde' : (setV data k (some v)).isEmpty = false := by
    cases hs : setV data k (some v) with
    | nil => exact absurd hs (setV_ne_nil data k (some v))
    | cons a t => rfl
  have hcount : campos.countP (fun k' => fieldFilled (setV data k (some v)) k') =
      campos.countP (fun k' => fieldFilled data k') + 1 := by
    apply countP_update campos hnd k hk
    · intro x hx
      unfold fieldFilled
      rw [getV_setV, if_neg hx]
    · unfold fieldFilled
      rw [hnull]
    · unfold fieldFilled
      rw [getV_setV, if_pos rfl]
      simpa using hv
  have e1 := calcular_some data campos hde hce
  have e2 := calcular_some (setV data k (some v)) campos hde' hce
  rw [hcount] at e2
  push_cast at e2
  have hlt := round1_lt (campos.countP fun k' => fieldFilled data k') campos.length
    (List.length_pos.mpr h0) hlen
  push_cast at hlt
  exact ⟨_, _, e1, e2, hlt⟩

/-! ### Bucket lemmas for duplicate inputs -/

lemma head?_take1 {α : Type} (l : List α) : (l.take 1).head? = l.head? := by
  cases l <;> rfl

lemma bucket_keepFirstAux (k : String) (seen : List String) (items : List DocItem) :
    bucket (some k) (keepFirstAux seen items) =
      if seen.contains k then [] else (bucket (some k) items).take 1 := by
  induction items generalizing seen with
  | nil =>
    by_cases hseen : seen.contains k <;> simp [keepFirstAux, bucket, hseen]
  | cons it t ih =>
    cases hg : guess_doc_id_by_filename it.original_name with
    | none =>
      have hpred : (guess_doc_id_by_filename it.original_name == some k) = false := by
        rw [hg]; rfl
      simp only [keepFirstAux, hg, bucket, List.filter_cons, hpred, Bool.false_eq_true,
        if_false]
      exact ih seen
    | some k' =>
      by_cases hseen : seen.contains k'
      · simp only [keepFirstAux, hg, hseen, if_true]
        by_cases hkk : k' = k
        · subst hkk
          rw [ih seen, if_pos hseen, if_pos hseen]
        · have hpred : (guess_doc_id_by_filename it.original_name == some k) = false := by
            rw [hg]; simp [hkk]
          rw [ih seen]
          simp only [bucket, List.filter_cons, hpred, Bool.false_eq_true, if_false]
      · simp only [keepFirstAux, hg, hseen, Bool.false_eq_true, if_false]
        by_cases hkk : k' = k
        · subst hkk
          have hpred : (guess_doc_id_by_filename it.original_name == some k') = true := by
            rw [hg]; simp
          have ih2 := ih (k' :: seen)
          unfold bucket at ih2 ⊢
          simp only [List.filter_cons, hpred, if_true]
          rw [ih2]
          simp only [List.contains_cons, beq_self_eq_true, Bool.true_or, if_true, List.take]
          have hmem : ¬ k' ∈ seen := fun hm => hseen (List.elem_iff.mpr hm)
          simp [hseen, hmem]
        · have hpred : (guess_doc_id_by_filename it.original_name == some k) = false := by
            rw [hg]; simp [hkk]
          have ih2 := ih (k' :: seen)
          unfold bucket at ih2 ⊢
          simp only [List.filter_cons, hpred, Bool.false_eq_true, if_false]
          rw [ih2]
          simp only [List.contains_cons]
          have hbe : (k == k') = false := by
            simp only [beq_eq_false_iff_ne, ne_eq]
            exact fun h => hkk h.symm
          rw [hbe, Bool.false_or]

lemma bucket_head_keepFirst (k : String) (items : List DocItem) :
    (bucket (some k) (keepFirstPerKind items)).head? = (bucket (some k) items).head? := by
  unfold keepFirstPerKind
  rw [bucket_keepFirstAux]
  simp [head?_take1]

/-! ### Claim theorems -/

/-- Claim C6: date normalization maps `16-OCT-1986` to `1986-10-16` (the
day-month-abbreviation format handled by `normalize_date`), `5 de febrero
de 2026` to `2026-02-05` (the Spanish long form handled by
`normalize_date_es`), and `12/11/2004` to `2004-11-12` (the numeric form,
handled by both normalizers). -/
theorem c6_date_normalization_examples :
    normalize_date (some "16-OCT-1986") = some "1986-10-16" ∧
    normalize_date_es (some "5 de febrero de 2026") = some "2026-02-05" ∧
    normalize_date (some "12/11/2004") = some "2004-11-12" ∧
    normalize_date_es (some "12/11/2004") = some "2004-11-12" :=
  ⟨by rfl, by rfl, by rfl, by rfl⟩

/-- Claim C7, counterexample: an input matching none of the recognized
formats is NOT returned unchanged — `normalize_date` uppercases (and
trims) it, so `hello` comes back as `HELLO`. -/
theorem c7_counterexample_not_unchanged :
    normalize_date (some "hello") = some "HELLO" ∧ ("HELLO" : String) ≠ "hello" :=
  ⟨by rfl, by decide⟩

/-- Claim C7 (amended): for every non-null, non-empty input string on which
none of the recognized formats fires, `normalize_date` returns the
trimmed UPPERCASED input and `normalize_date_es` returns the trimmed
input; neither ever fails.  (The claim's "returns the input unchanged" is
wrong: stripping and, for `normalize_date`, uppercasing are applied.) -/
theorem c7_unmatched_input_returned_normalized (s : String) (h0 : ¬ s = "")
    (h1 : isoFull (pyUpper (pyStrip s)) = false)
    (h2 : ∀ t, searchFirst matchDMMMY (pyUpper (pyStrip s)).data = some t →
      monthsEN.lookup t.2.1 = none)
    (h3 : searchFirst matchDMY (pyUpper (pyStrip s)).data = none)
    (h4 : searchFirst matchDMYes (pyUpper (pyStrip s)).data = none)
    (h5 : ∀ t, searchFirst matchSpanishLong (pyUpper (pyStrip s)).data = some t →
      mesES.lookup t.2.1 = none) :
    normalize_date (some s) = some (pyUpper (pyStrip s)) ∧
    normalize_date_es (some s) = some (pyStrip s) := by
  have hbe : (s == "") = false := by simpa using h0
  constructor
  · simp only [normalize_date, hbe, Bool.false_eq_true, if_false, h1]
    cases hm : searchFirst matchDMMMY (pyUpper (pyStrip s)).data with
    | none => simp [hm, normDateNumeric, h3]
    | some t => simp [hm, h2 t hm, normDateNumeric, h3]
  · simp only [normalize_date_es, hbe, Bool.false_eq_true, if_false, h1, h4]
    cases hm : searchFirst matchSpanishLong (pyUpper (pyStrip s)).data with
    | none => simp [hm]
    | some t => simp [hm, h5 t hm]

/-- Witness for the amended C7 theorem at the concrete input `hola`. -/
theorem c7_witness :
    normalize_date (some "hola") = some "HOLA" ∧
    normalize_date_es (some "hola") = some "hola" := by
  have h := c7_unmatched_input_returned_normalized "hola" (by decide) (by rfl)
    (by
      intro t ht
      rw [show searchFirst matchDMMMY (pyUpper (pyStrip "hola")).data = none from rfl] at ht
      exact Option.noConfusion ht)
    (by rfl) (by rfl)
    (by
      intro t ht
      rw [show searchFirst matchSpanishLong (pyUpper (pyStrip "hola")).data = none from
        rfl] at ht
      exact Option.noConfusion ht)
  exact h

/-- Claim C5, counterexample: the completeness of an empty record against
the tax-registration kind's six declared fields is `None`, not 0.0 — the
function returns null when the record is empty, as section 4.7 states. -/
theorem c5_counterexample_empty_record_none :
    calcular_completitud (some ([] : Rec)) (campos_esperados_por_doc "DOC14") = none ∧
    (campos_esperados_por_doc "DOC14").length = 6 :=
  ⟨by rfl, by rfl⟩

/-- Claim C5 (amended): over the dictionary's declared field lists,
giving a value to a previously-null declared field of a non-empty record
strictly increases the completeness percentage; and the completeness of an
empty record is null (None), not 0.0. -/
theorem c5_completeness_monotone (doc : String)
    (hdoc : doc = "DOC14" ∨ doc = "DOC12" ∨ doc = "DOC16") (data : Rec) (hne : data ≠ [])
    (k v : String) (hk : k ∈ campos_esperados_por_doc doc) (hnull : getV data k = none)
    (hv : ¬ pyStrip v = "") :
    (∃ q q', calcular_completitud (some data) (campos_esperados_por_doc doc) = some q ∧
      calcular_completitud (some (setV data k (some v)))
        (campos_esperados_por_doc doc) = some q' ∧ q < q') ∧
    calcular_completitud (some ([] : Rec)) (campos_esperados_por_doc doc) = none := by
  have hprops : (campos_esperados_por_doc doc).Nodup ∧
      campos_esperados_por_doc doc ≠ [] ∧
      (campos_esperados_por_doc doc).length ≤ 1000 := by
    rcases hdoc with h | h | h <;> subst h <;> exact ⟨by decide, by decide, by decide⟩
  exact ⟨completeness_strict_mono _ hprops.1 hprops.2.1 hprops.2.2 data hne k v hk
    hnull hv, rfl⟩

/-- Witness for the amended C5 theorem: a one-field tax-registration record
gains the previously-null `primer_nombre`. -/
theorem c5_witness :
    (∃ q q', calcular_completitud (some [("tipo_documento", some "NIT")])
        (campos_esperados_por_doc "DOC14") = some q ∧
      calcular_completitud
        (some (setV [("tipo_documento", some "NIT")] "primer_nombre" (some "JUAN")))
        (campos_esperados_por_doc "DOC14") = some q' ∧ q < q') ∧
    calcular_completitud (some ([] : Rec)) (campos_esperados_por_doc "DOC14") = none :=
  c5_completeness_monotone "DOC14" (Or.inl rfl) [("tipo_documento", some "NIT")]
    (by decide) "primer_nombre" "JUAN" (by decide) (by rfl) (by decide)

/-- Claim C8: for a bank-certification record with an expedition date, the
recency check appends exactly one WARNING when the parsed date is exactly
31 days before today, exactly one INFO when it is exactly 30 days before,
and exactly one ERROR (processing continuing, no crash) when the string
fails the ISO parse. -/
theorem c8_recency_check (data : Rec) (hoy : ℤ) (ts : String) (logs : List LogEntry)
    (f : String) (hf : getV data "fecha_expedicion" = some f) (hne : ¬ f = "") :
    (∀ d, parseYmd f = some d → hoy - dayNumber d = 31 →
      validar_fecha_certificacion_bancaria data hoy ts logs = logs ++
        [⟨ts, "CERTIFICACION_BANCARIA", "WARNING",
          "La certificación bancaria tiene 31 días de expedición (mayor a 30 días)."⟩]) ∧
    (∀ d, parseYmd f = some d → hoy - dayNumber d = 30 →
      validar_fecha_certificacion_bancaria data hoy ts logs = logs ++
        [⟨ts, "CERTIFICACION_BANCARIA", "INFO",
          "La certificación bancaria fue expedida hace 30 días (vigente)."⟩]) ∧
    (parseYmd f = none →
      validar_fecha_certificacion_bancaria data hoy ts logs = logs ++
        [⟨ts, "CERTIFICACION_BANCARIA", "ERROR",
          "Error al procesar fecha de expedición: "⟩]) := by
  have hbe : (f == "") = false := by simpa using hne
  refine ⟨?_, ?_, ?_⟩
  · intro d hd hdiff
    simp only [validar_fecha_certificacion_bancaria, hf, hbe, Bool.false_eq_true,
      if_false, hd, hdiff]
    rw [if_pos (by norm_num : (31 : ℤ) > 30), agregar_log]
    have hstr : "La certificación bancaria tiene " ++ toString (31 : ℤ) ++
        " días de expedición (mayor a 30 días)." =
        "La certificación bancaria tiene 31 días de expedición (mayor a 30 días)." := rfl
    rw [hstr]
  · intro d hd hdiff
    simp only [validar_fecha_certificacion_bancaria, hf, hbe, Bool.false_eq_true,
      if_false, hd, hdiff]
    rw [if_neg (by norm_num : ¬ (30 : ℤ) > 30), agregar_log]
    have hstr : "La certificación bancaria fue expedida hace " ++ toString (30 : ℤ) ++
        " días (vigente)." =
        "La certificación bancaria fue expedida hace 30 días (vigente)." := rfl
    rw [hstr]
  · intro hd
    simp only [validar_fecha_certificacion_bancaria, hf, hbe, Bool.false_eq_true,
      if_false, hd, agregar_log]

/-- Witness for C8 at concrete dates: an expedition date of 2026-01-01
checked 31 days later (WARNING), 30 days later (INFO), and an unparseable
date string (ERROR). -/
theorem c8_witness :
    validar_fecha_certificacion_bancaria [("fecha_expedicion", some "2026-01-01")]
      (dayNumber ⟨2026, 1, 1⟩ + 31) "t" [] =
      [⟨"t", "CERTIFICACION_BANCARIA", "WARNING",
        "La certificación bancaria tiene 31 días de expedición (mayor a 30 días)."⟩] ∧
    validar_fecha_certificacion_bancaria [("fecha_expedicion", some "2026-01-01")]
      (dayNumber ⟨2026, 1, 1⟩ + 30) "t" [] =
      [⟨"t", "CERTIFICACION_BANCARIA", "INFO",
        "La certificación bancaria fue expedida hace 30 días (vigente)."⟩] ∧
    validar_fecha_certificacion_bancaria [("fecha_expedicion", some "31/12/2025")]
      0 "t" [] =
      [⟨"t", "CERTIFICACION_BANCARIA", "ERROR",
        "Error al procesar fecha de expedición: "⟩] := by
  refine ⟨?_, ?_, ?_⟩
  · exact (c8_recency_check [("fecha_expedicion", some "2026-01-01")]
      (dayNumber ⟨2026, 1, 1⟩ + 31) "t" [] "2026-01-01" (by rfl) (by decide)).1
      ⟨2026, 1, 1⟩ (by rfl) (by ring)
  · exact (c8_recency_check [("fecha_expedicion", some "2026-01-01")]
      (dayNumber ⟨2026, 1, 1⟩ + 30) "t" [] "2026-01-01" (by rfl) (by decide)).2.1
      ⟨2026, 1, 1⟩ (by rfl) (by ring)
  · exact (c8_recency_check [("fecha_expedicion", some "31/12/2025")]
      0 "t" [] "31/12/2025" (by rfl) (by decide)).2.2 (by rfl)

/-- Claim C9: the cross-document identity check appends exactly one
VALIDACION_CRUZADA entry — INFO when the digit-only identity numbers agree
and WARNING when they differ — and, when a side is missing, appends exactly
one WARNING naming that side and no comparison entry. -/
theorem c9_cross_validation (rut cc : Rec) (ts : String) (logs : List LogEntry) :
    (∀ a b, only_digits (getV rut "numero_identificacion") = some a →
      only_digits (getV cc "doc_numero") = some b →
      validar_rut_vs_cedula rut cc ts logs = logs ++
        [⟨ts, "VALIDACION_CRUZADA", if a = b then "INFO" else "WARNING",
          if a = b then
            "El número de identificación del RUT coincide con el de la cédula."
          else
            "El número de identificación del RUT (" ++ a ++
              ") NO coincide con el de la cédula (" ++ b ++ ")."⟩]) ∧
    (only_digits (getV rut "numero_identificacion") = none →
      validar_rut_vs_cedula rut cc ts logs = logs ++
        [⟨ts, "RUT", "WARNING", "El RUT no tiene número de identificación extraído."⟩]) ∧
    (∀ a, only_digits (getV rut "numero_identificacion") = some a →
      only_digits (getV cc "doc_numero") = none →
      validar_rut_vs_cedula rut cc ts logs = logs ++
        [⟨ts, "CEDULA", "WARNING",
          "La cédula no tiene número de identificación extraído."⟩]) := by
  refine ⟨?_, ?_, ?_⟩
  · intro a b ha hb
    simp only [validar_rut_vs_cedula, ha, hb]
    by_cases hab : a = b
    · rw [if_neg (by simpa using hab), if_pos hab, if_pos hab, agregar_log]
    · rw [if_pos hab, if_neg hab, if_neg hab, agregar_log]
  · intro ha
    simp only [validar_rut_vs_cedula, ha, agregar_log]
  · intro a ha hb
    simp only [validar_rut_vs_cedula, ha, hb, agregar_log]

/-- Witness for C9: equal numbers give INFO, different give WARNING,
missing sides give the side-naming WARNING. -/
theorem c9_witness :
    validar_rut_vs_cedula [("numero_identificacion", some "123456789")]
      [("doc_numero", some "123456789")] "t" [] =
      [⟨"t", "VALIDACION_CRUZADA", "INFO",
        "El número de identificación del RUT coincide con el de la cédula."⟩] ∧
    validar_rut_vs_cedula [("numero_identificacion", some "123456789")]
      [("doc_numero", some "987654321")] "t" [] =
      [⟨"t", "VALIDACION_CRUZADA", "WARNING",
        "El número de identificación del RUT (123456789) NO coincide con el de la cédula (987654321)."⟩] ∧
    validar_rut_vs_cedula ([] : Rec) [("doc_numero", some "123456789")] "t" [] =
      [⟨"t", "RUT", "WARNING", "El RUT no tiene número de identificación extraído."⟩] ∧
    validar_rut_vs_cedula [("numero_identificacion", some "123456789")] ([] : Rec)
      "t" [] =
      [⟨"t", "CEDULA", "WARNING",
        "La cédula no tiene número de identificación extraído."⟩] := by
  refine ⟨?_, ?_, ?_, ?_⟩
  · have h := (c9_cross_validation [("numero_identificacion", some "123456789")]
      [("doc_numero", some "123456789")] "t" []).1 "123456789" "123456789"
      (by rfl) (by rfl)
    simpa using h
  · have h := (c9_cross_validation [("numero_identificacion", some "123456789")]
      [("doc_numero", some "987654321")] "t" []).1 "123456789" "987654321"
      (by rfl) (by rfl)
    rw [if_neg (by decide), if_neg (by decide)] at h
    simpa using h
  · exact (c9_cross_validation ([] : Rec) [("doc_numero", some "123456789")] "t" []).2.1
      (by rfl)
  · exact (c9_cross_validation [("numero_identificacion", some "123456789")]
      ([] : Rec) "t" []).2.2 "123456789" (by rfl) (by rfl)

/-- Claim C4: for every combination of present and absent kinds, the
consolidated table has exactly `MASTER_ROWS.length` rows, in dictionary
declaration order; rows of an absent kind have a null `Valor`; and whenever
the national-ID or bank-certification record is present (a non-empty
record), that kind's document-type row carries the fixed literal string,
regardless of the record's contents. -/
theorem c4_consolidated_table (rut cc d16 : Option Rec) (p q : String × Option String)
    (ps qs : List (String × Option String)) :
    (fill_master_values rut cc d16).length = MASTER_ROWS.length ∧
    ((fill_master_values rut cc d16).map fun row => (row.doc_id, row.nombre)) =
      (MASTER_ROWS.map fun row => (row.doc_id, row.nombre)) ∧
    ((fill_master_values none cc d16).all fun row =>
      !(row.doc_id == "DOC14") || (valorOut row == none)) = true ∧
    ((fill_master_values rut none d16).all fun row =>
      !(row.doc_id == "DOC12") || (valorOut row == none)) = true ∧
    ((fill_master_values rut cc none).all fun row =>
      !(row.doc_id == "DOC16") || (valorOut row == none)) = true ∧
    ((fill_master_values rut (some (p :: ps)) d16).all fun row =>
      !(row.doc_id == "DOC12" && row.nombre == "doc_tipo") ||
        (row.valor == some (some ccDocTipoLiteral))) = true ∧
    ((fill_master_values rut cc (some (q :: qs))).all fun row =>
      !(row.doc_id == "DOC16" && row.nombre == "doc_tipo") ||
        (row.valor == some (some "Certificación bancaria"))) = true :=
  ⟨by rfl, by rfl, by rfl, by rfl, by rfl, by rfl, by rfl⟩

/-- Claim C1, counterexample: when the model's answer for the
tax-registration document is not parseable JSON, no recovery happens — the
parse error propagates out of `run_pipeline` and the caller receives no
records, consolidated table, logs or metrics at all. -/
theorem c1_counterexample_error_escapes :
    run_pipeline (constEnv "not json" "" "" []) [itemRUT] =
      Except.error "Expecting value" := by rfl

/-- Claim C1 (amended): `safe_json_loads` only strips markdown fences; a
JSON parse failure of the model output for the first tax-registration
document raises, and the exception propagates out of `run_pipeline`
uncaught — no empty-record fallback and no ERROR log entry are produced. -/
theorem c1_parse_error_propagates (env : Env) (items : List DocItem) (it : DocItem)
    (rest : List DocItem) (hb : bucket (some "DOC14") items = it :: rest) (e : String)
    (he : safe_json_loads (env.llmRut (rutTextoOf env it)) = .error e) :
    run_pipeline env items = .error e := by
  have hpr : processRUT env it = .error e := by
    unfold processRUT
    simp only []
    rw [he]
    rfl
  have hk : kindResult (processRUT env) (bucket (some "DOC14") items).head? =
      .error e := by
    rw [hb]
    simp only [List.head?, kindResult, hpr, Except.map]
  unfold run_pipeline pipelineCore
  simp only []
  rw [hk]
  rfl

/-- Witness for the amended C1 theorem at a concrete non-JSON model
answer. -/
theorem c1_witness :
    run_pipeline (constEnv "oops" "" "" []) [itemRUT] =
      Except.error "Expecting value" :=
  c1_parse_error_propagates (constEnv "oops" "" "" []) [itemRUT] itemRUT [] (by rfl)
    "Expecting value" (by rfl)

/-- Claim C2, counterexample: the national-ID `doc_numero` is only
digit-filtered, with no length gate — a model answer of `123` (three
digits) reaches the final extracted record unchanged, so "digit length in
8 to 10 for every accepted identity number" is false for `doc_numero`. -/
theorem c2_counterexample_short_doc_numero :
    ((run_pipeline (constEnv "" "\x7b\"doc_numero\": \"123\"\x7d" "" [])
        [itemCC]).toOption.bind fun r => r.cc_data.bind fun cd =>
          getV cd "doc_numero") = some "123" ∧
    ¬ (8 ≤ ("123" : String).length) := ⟨by rfl, by decide⟩

/-- Claim C2 (amended): in every successful pipeline run, the final
tax-registration `numero_identificacion` is digit-only with length in
8 to 10 whenever present, while the national-ID `doc_numero` is only
guaranteed digit-only and non-empty — it carries no length bound. -/
theorem c2_identity_number_bounds (env : Env) (items : List DocItem) (r : PipelineResult)
    (hok : run_pipeline env items = .ok r) :
    (∀ rd, r.rut_data = some rd → ∀ s, getV rd "numero_identificacion" = some s →
      s.data.all isDigitC = true ∧ 8 ≤ s.length ∧ s.length ≤ 10) ∧
    (∀ cd, r.cc_data = some cd → ∀ s, getV cd "doc_numero" = some s →
      s.data.all isDigitC = true ∧ s ≠ "") := by
  obtain ⟨core, hcore, hr⟩ := run_pipeline_ok env items r hok
  obtain ⟨rutPart, ccPart, d16Part, h1, h2, h3, e1, e2, e3⟩ :=
    pipelineCore_ok _ _ _ _ _ hcore
  constructor
  · intro rd hrd s hs
    have hcr : core.rut_data = some rd := by
      rw [← hr]
      exact hrd
    rw [e1] at hcr
    cases rutPart with
    | none => cases hcr
    | some part =>
      simp only [Option.map, Option.some.injEq] at hcr
      obtain ⟨it, _, hpr⟩ := kindResult_ok_some (processRUT env) _ part.1 part.2
        (by rw [← h1])
      obtain ⟨parsed, _, hrec⟩ := processRUT_ok env it part.1 part.2 hpr
      refine rutSection_numero_bounds env it (rutTextoOf env it) parsed s ?_
      rw [← hrec, hcr]
      exact hs
  · intro cd hcd s hs
    have hcc : core.cc_data = some cd := by
      rw [← hr]
      exact hcd
    rw [e2] at hcc
    cases ccPart with
    | none => cases hcc
    | some part =>
      simp only [Option.map, Option.some.injEq] at hcc
      obtain ⟨it, _, hpc⟩ := kindResult_ok_some (processCC env) _ part.1 part.2
        (by rw [← h2])
      obtain ⟨parsed, _, hrec⟩ := processCC_ok env it part.1 part.2 hpc
      have : only_digits (getV parsed "doc_numero") = some s := by
        rw [← getV_normalizar_cc_doc_numero, ← hrec, hcc]
        exact hs
      exact only_digits_some _ s this

/-- Witness for the amended C2 theorem: a run with no input documents
succeeds, and the theorem applies to its result. -/
theorem c2_witness :
    (∀ rd, (⟨⟨none, none, none, MASTER_ROWS.map (fun r => ⟨r, none⟩), [],
        ⟨none, none, none, none, none, none, 0, 0, 0, 0⟩⟩, [], [], [], []⟩ :
        PipelineResult).rut_data = some rd →
      ∀ s, getV rd "numero_identificacion" = some s →
        s.data.all isDigitC = true ∧ 8 ≤ s.length ∧ s.length ≤ 10) ∧
    (∀ cd, (⟨⟨none, none, none, MASTER_ROWS.map (fun r => ⟨r, none⟩), [],
        ⟨none, none, none, none, none, none, 0, 0, 0, 0⟩⟩, [], [], [], []⟩ :
        PipelineResult).cc_data = some cd →
      ∀ s, getV cd "doc_numero" = some s →
        s.data.all isDigitC = true ∧ s ≠ "") :=
  c2_identity_number_bounds (constEnv "" "" "" []) [] _ (by rfl)

/-- Claim C3, counterexample: suspicion is NOT tested on the model's
digit-filtered value.  With a well-formed nine-digit model answer whose
field-26 validation fails against an empty text, the code still attempts
the focused OCR re-read and stamps the OCR provenance tag, contradicting
the claim's fallback order. -/
theorem c3_counterexample_suspicion_on_normalized_value : ¬ c3ClaimAsWritten := by
  intro h
  refine h (constEnv "" "" "" [["987654321"]]) itemRUT ""
    [("numero_identificacion", some "123456789")] ?_ (by rfl)
  exact (by decide :
    8 ≤ (digitsOf "123456789").length ∧ (digitsOf "123456789").length ≤ 10)

/-- Claim C3 (amended): the fallback is the ordered strategy list of
`rutPolicySpec` — focused OCR re-read when the current (rule-corrected,
field-26-validated) value is suspicious, then the strict field-26 regex,
then keeping the current value — and the record always carries exactly one
of the three provenance tags. -/
theorem c3_fallback_policy (env : Env) (it : DocItem) (texto : String) (rd : Rec) :
    rutNumeroFallback env it texto rd = rutPolicySpec env it texto rd ∧
    (getV (rutNumeroFallback env it texto rd) "_fuente_numero_identificacion" =
        some "ocr_campo26" ∨
     getV (rutNumeroFallback env it texto rd) "_fuente_numero_identificacion" =
        some "validado_campo26" ∨
     getV (rutNumeroFallback env it texto rd) "_fuente_numero_identificacion" =
        some "ia_no_validado") := by
  unfold rutNumeroFallback rutPolicySpec strategyOcrRegion strategyTextPattern
  simp only []
  by_cases hs : numero_id_es_sospechoso (getV rd "numero_identificacion")
  · rw [if_pos hs, if_pos hs]
    cases ho : ocr_numero_identificacion_desde_campo26 (env.field26Pages it) with
    | some v =>
      simp only [ho, Option.map_some', List.findSome?_cons, id]
      exact ⟨by trivial, Or.inl (by rw [getV_setV, if_pos rfl])⟩
    | none =>
      simp only [ho, Option.map_none', List.findSome?_cons, id]
      cases hv : validar_numero_identificacion texto (getV rd "numero_identificacion") with
      | some nv =>
        simp only [hv, Option.map_some']
        exact ⟨by trivial, Or.inr (Or.inl (by rw [getV_setV, if_pos rfl]))⟩
      | none =>
        simp only [hv, Option.map_none', List.findSome?_cons, List.findSome?_nil]
        exact ⟨by trivial, Or.inr (Or.inr (by rw [getV_setV, if_pos rfl]))⟩
  · rw [if_neg hs, if_neg hs]
    simp only [List.findSome?_cons, id]
    cases hv : validar_numero_identificacion texto (getV rd "numero_identificacion") with
    | some nv =>
      simp only [hv, Option.map_some']
      exact ⟨by trivial, Or.inr (Or.inl (by rw [getV_setV, if_pos rfl]))⟩
    | none =>
      simp only [hv, Option.map_none', List.findSome?_cons, List.findSome?_nil]
      exact ⟨by trivial, Or.inr (Or.inr (by rw [getV_setV, if_pos rfl]))⟩

/-- Claim C10: duplicate documents of an already-seen kind contribute
nothing — the records, consolidated table, logs and metrics of a run equal
those of the run keeping only the first document per kind — while the
returned upload summary lists every classified document, duplicates
included. -/
theorem c10_duplicates_first_wins (env : Env) (items : List DocItem) :
    (run_pipeline env items).map (fun r => r.toCoreResult) =
      (run_pipeline env (keepFirstPerKind items)).map (fun r => r.toCoreResult) ∧
    (run_pipeline env items).map (fun r =>
        (r.resumenDOC14, r.resumenDOC12, r.resumenDOC16, r.resumenUNKNOWN)) =
      (run_pipeline env items).map (fun _ =>
        ((bucket (some "DOC14") items).map fun x => x.original_name,
         (bucket (some "DOC12") items).map fun x => x.original_name,
         (bucket (some "DOC16") items).map fun x => x.original_name,
         (bucket none items).map fun x => x.original_name)) := by
  constructor
  · unfold run_pipeline
    simp only []
    rw [bucket_head_keepFirst "DOC14" items, bucket_head_keepFirst "DOC12" items,
      bucket_head_keepFirst "DOC16" items]
    cases hpc : pipelineCore env (bucket (some "DOC14") items).head?
        (bucket (some "DOC12") items).head? (bucket (some "DOC16") items).head? <;>
      simp [Except.map]
  · unfold run_pipeline
    simp only []
    cases hpc : pipelineCore env (bucket (some "DOC14") items).head?
        (bucket (some "DOC12") items).head? (bucket (some "DOC16") items).head? <;>
      simp [Except.map]
